import Mathlib

/-!
# hello_trans: a verification development of `src/main.c`

`main.c` is a single C translation unit that opens a GLFW window, builds three
shader programs and five indexed quads, and redraws a five-band flag every
frame until the window is asked to close.

The program is embedded as state passing over a `World` record that stands for
everything outside the C code: the GLFW library, the GL context and the
console.  Every library call of `main.c` is a Lean function of the same name
that appends itself to `World.trace` and updates the part of the world it is
documented to change.  What the outside world decides (whether the three
start-up calls succeed, what the escape key reads in each frame, which events a
poll delivers) is read from an `Env`.

* Decimal literals such as `0.6f` are embedded as the rationals they denote.
* GLSL `main` functions are embedded as the Lean functions they compute.
* GL object names are handed out consecutively from 1, separately for shaders
  and programs, for vertex arrays and for buffers; the program only ever uses
  the names it was given, so any other choice of distinct names renames the
  handles and changes nothing else.
* The render loop takes a fuel argument; `none` means the fuel ran out before
  the window was asked to close.
-/

namespace HelloTrans

/-! ## Vectors -/

/-- GLSL `vec3`. -/
structure Vec3 where
  x : ℚ
  y : ℚ
  z : ℚ
deriving DecidableEq

/-- GLSL `vec4`. -/
structure Vec4 where
  x : ℚ
  y : ℚ
  z : ℚ
  w : ℚ
deriving DecidableEq

/-! ## Constants and handlers of `main.c` (lines 7-33) -/

/-- `const int SCREEN_WIDTH = 640;` -/
def SCREEN_WIDTH : Int := 640

/-- `const int SCREEN_HEIGHT = 400;` -/
def SCREEN_HEIGHT : Int := 400

/-- Shader stage passed to `glCreateShader`. -/
inductive ShaderStage
  | GL_VERTEX_SHADER
  | GL_FRAGMENT_SHADER
deriving DecidableEq

/-- A GLSL translation unit, embedded as the function its `main` computes:
a vertex shader maps the attribute `aPos` to `gl_Position`, a fragment shader
maps the fragment position to `FragColor`. -/
inductive Glsl
  | vertexMain (f : Vec3 → Vec4)
  | fragmentMain (f : Vec4 → Vec4)

/-- `vertex_shader_src`: `gl_Position = vec4(aPos.x, aPos.y, aPos.z, 1.0);` -/
def vertex_shader_src : Glsl :=
  .vertexMain fun aPos => ⟨aPos.x, aPos.y, aPos.z, 1.0⟩

/-- `fragment_shader_src_blue`: `FragColor = vec4(0.36f, 0.81f, 0.98f, 1.0f);` -/
def fragment_shader_src_blue : Glsl :=
  .fragmentMain fun _ => ⟨0.36, 0.81, 0.98, 1.0⟩

/-- `fragment_shader_src_pink`: `FragColor = vec4(0.96f, 0.62f, 0.72f, 1.0f);` -/
def fragment_shader_src_pink : Glsl :=
  .fragmentMain fun _ => ⟨0.96, 0.62, 0.72, 1.0⟩

/-- `fragment_shader_src_white`: `FragColor = vec4(1.0f, 1.0f, 1.0f, 1.0f);` -/
def fragment_shader_src_white : Glsl :=
  .fragmentMain fun _ => ⟨1.0, 1.0, 1.0, 1.0⟩

/-! ## Vertex and index data (lines 99-135) -/

/-- `float stripe_blue_top[]` -/
def stripe_blue_top : List ℚ := [
   1.0,  1.0,  0.0,
   1.0,  0.6,  0.0,
  -1.0,  0.6,  0.0,
  -1.0,  1.0,  0.0
]

/-- `float stripe_pink_top[]` -/
def stripe_pink_top : List ℚ := [
   1.0,  0.6,  0.0,
   1.0,  0.2,  0.0,
  -1.0,  0.2,  0.0,
  -1.0,  0.6,  0.0
]

/-- `float stripe_white[]` -/
def stripe_white : List ℚ := [
   1.0,  0.2,  0.0,
   1.0, -0.2,  0.0,
  -1.0, -0.2,  0.0,
  -1.0,  0.2,  0.0
]

/-- `float stripe_pink_bottom[]` -/
def stripe_pink_bottom : List ℚ := [
   1.0, -0.2,  0.0,
   1.0, -0.6,  0.0,
  -1.0, -0.6,  0.0,
  -1.0, -0.2,  0.0
]

/-- `float stripe_blue_bottom[]` -/
def stripe_blue_bottom : List ℚ := [
   1.0, -0.6,  0.0,
   1.0, -1.0,  0.0,
  -1.0, -1.0,  0.0,
  -1.0, -0.6,  0.0
]

/-- `unsigned int stripe_indices[]` -/
def stripe_indices : List Nat := [
  0, 1, 3,
  1, 2, 3
]

/-- `sizeof` of a `float[]` or `unsigned int[]` with `n` elements. -/
def sizeofArray (n : Nat) : Nat := 4 * n

/-! ## The outside world -/

/-- Hints set with `glfwWindowHint`. -/
inductive WindowHint
  | GLFW_CONTEXT_VERSION_MAJOR
  | GLFW_CONTEXT_VERSION_MINOR
  | GLFW_OPENGL_PROFILE
deriving DecidableEq

/-- Values given to `glfwWindowHint`. -/
inductive HintValue
  | number (n : Int)
  | GLFW_OPENGL_CORE_PROFILE
deriving DecidableEq

/-- Keys queried with `glfwGetKey`. -/
inductive Key
  | GLFW_KEY_ESCAPE
deriving DecidableEq

/-- What `glfwGetKey` returns. -/
inductive KeyAction
  | GLFW_RELEASE
  | GLFW_PRESS
deriving DecidableEq

/-- Buffer binding targets. -/
inductive BufferTarget
  | GL_ARRAY_BUFFER
  | GL_ELEMENT_ARRAY_BUFFER
deriving DecidableEq

/-- Buffer usage hints. -/
inductive BufferUsage
  | GL_STATIC_DRAW
deriving DecidableEq

/-- Component and index types. -/
inductive DataType
  | GL_FLOAT
  | GL_UNSIGNED_INT
deriving DecidableEq

/-- Primitive modes. -/
inductive DrawMode
  | GL_TRIANGLES
deriving DecidableEq

/-- Bits accepted by `glClear`. -/
inductive ClearMask
  | GL_COLOR_BUFFER_BIT
deriving DecidableEq

/-- The functions of `main.c` that are handed to GLFW as callbacks. -/
inductive Callback
  | framebuffer_size_callback
deriving DecidableEq

/-- The payload of `glBufferData`. -/
inductive BufferData
  | floats (data : List ℚ)
  | uints (data : List Nat)
deriving DecidableEq

/-- One library call, with the arguments `main.c` passes. -/
inductive Call
  | printf (text : String)
  | glfwInit
  | glfwTerminate
  | glfwWindowHint (hint : WindowHint) (value : HintValue)
  | glfwCreateWindow (width height : Int) (title : String)
  | glfwMakeContextCurrent (window : Nat)
  | glfwSwapInterval (interval : Int)
  | glfwSetFramebufferSizeCallback (window : Nat) (callback : Callback)
  | glfwWindowShouldClose (window : Nat)
  | glfwGetKey (window : Nat) (key : Key)
  | glfwSetWindowShouldClose (window : Nat) (value : Bool)
  | glfwSwapBuffers (window : Nat)
  | glfwPollEvents
  | glewInit
  | glViewport (x y width height : Int)
  | glCreateShader (stage : ShaderStage)
  | glShaderSource (shader : Nat)
  | glCompileShader (shader : Nat)
  | glCreateProgram
  | glAttachShader (program shader : Nat)
  | glLinkProgram (program : Nat)
  | glGenVertexArrays (n : Nat)
  | glGenBuffers (n : Nat)
  | glBindVertexArray (array : Nat)
  | glBindBuffer (target : BufferTarget) (buffer : Nat)
  | glBufferData (target : BufferTarget) (size : Nat) (data : BufferData) (usage : BufferUsage)
  | glVertexAttribPointer (index size : Nat) (type : DataType) (normalized : Bool)
      (stride offset : Nat)
  | glEnableVertexAttribArray (index : Nat)
  | glClearColor (red green blue alpha : ℚ)
  | glClear (mask : ClearMask)
  | glUseProgram (program : Nat)
  | glDrawElements (mode : DrawMode) (count : Nat) (type : DataType) (offset : Nat)
deriving DecidableEq

/-- A shader object. -/
structure ShaderObj where
  stage : ShaderStage
  source : Option Glsl
  compiled : Bool

/-- A program object. -/
structure ProgramObj where
  attached : List Nat
  linked : Bool

/-- The layout arguments of `glVertexAttribPointer`. -/
structure AttribLayout where
  size : Nat
  type : DataType
  normalized : Bool
  stride : Nat
  offset : Nat
deriving DecidableEq

/-- A vertex array object: its element buffer binding and, per attribute
index, the layout given to `glVertexAttribPointer` and the buffer that was
bound to `GL_ARRAY_BUFFER` at that call. -/
structure VaoObj where
  elementBuffer : Nat
  attribs : List (Nat × AttribLayout × Nat)
  enabled : List Nat
deriving DecidableEq

/-- What reaches the framebuffer: clears, draws (with the program and vertex
array bound when the draw was issued) and buffer swaps. -/
inductive RenderOp
  | clear (mask : ClearMask) (color : Vec4)
  | draw (program array : Nat) (mode : DrawMode) (count : Nat) (type : DataType) (offset : Nat)
  | present
deriving DecidableEq

/-- The state of GLFW, the GL context and the console. -/
structure World where
  /-- Every library call made so far, oldest first. -/
  trace : List Call
  /-- Text written to standard output, one entry per `printf`. -/
  stdout : List String
  /-- GLFW is initialised and not yet terminated. -/
  glfwUp : Bool
  hints : List (WindowHint × HintValue)
  /-- The window handle, once created. -/
  window : Option Nat
  /-- Size of the window's framebuffer in pixels. -/
  framebufferSize : Int × Int
  contextCurrent : Option Nat
  swapInterval : Int
  shouldClose : Bool
  framebufferSizeCallback : Option Callback
  nextShaderName : Nat
  nextArrayName : Nat
  nextBufferName : Nat
  shaders : List (Nat × ShaderObj)
  programs : List (Nat × ProgramObj)
  buffers : List (Nat × BufferData)
  arrays : List (Nat × VaoObj)
  arrayBufferBinding : Nat
  vertexArrayBinding : Nat
  currentProgram : Nat
  clearColor : Vec4
  viewport : Int × Int × Int × Int
  rendered : List RenderOp

/-- The world before `main` starts. -/
def World.start : World where
  trace := []
  stdout := []
  glfwUp := false
  hints := []
  window := none
  framebufferSize := (0, 0)
  contextCurrent := none
  swapInterval := 0
  shouldClose := false
  framebufferSizeCallback := none
  nextShaderName := 1
  nextArrayName := 1
  nextBufferName := 1
  shaders := []
  programs := []
  buffers := []
  arrays := []
  arrayBufferBinding := 0
  vertexArrayBinding := 0
  currentProgram := 0
  clearColor := ⟨0, 0, 0, 0⟩
  viewport := (0, 0, 0, 0)
  rendered := []

/-- Events delivered by one `glfwPollEvents`. -/
structure Events where
  closeRequested : Bool
  resizes : List (Int × Int)

/-- What the outside world contributes to one frame. -/
structure TickInput where
  /-- What `glfwGetKey(window, GLFW_KEY_ESCAPE)` reads in `processInput`. -/
  escape : KeyAction
  /-- What the `glfwPollEvents` at the end of the frame delivers. -/
  events : Events

/-- Everything the outside world decides. -/
structure Env where
  /-- Return value of `glfwInit()`: `GLFW_TRUE` or `GLFW_FALSE`. -/
  glfwInitResult : Bool
  /-- Whether `glfwCreateWindow` returns a window (`true`) or `NULL`. -/
  createWindowResult : Bool
  /-- Return value of `glewInit()`; `0` is `GLEW_OK`. -/
  glewInitResult : Nat
  ticks : Nat → TickInput

/-- Set or replace the entry for `key`. -/
def store {α : Type} (key : Nat) (value : α) (table : List (Nat × α)) : List (Nat × α) :=
  (key, value) :: table.filter fun e => e.1 != key

/-- Change the entry for `key`, if there is one. -/
def adjust {α : Type} (key : Nat) (f : α → α) (table : List (Nat × α)) : List (Nat × α) :=
  table.map fun e => if e.1 == key then (e.1, f e.2) else e

/-- Append a call to the trace. -/
def World.log (w : World) (c : Call) : World :=
  { w with trace := w.trace ++ [c] }

/-! ## Library calls used by `main.c`

Each call appends itself to the trace.  Results that the program cannot
influence come from the `Env`. -/

/-- `printf(text)`: one more entry on standard output. -/
def printf (text : String) (w : World) : World :=
  { w.log (.printf text) with stdout := w.stdout ++ [text] }

/-- `glfwInit()`. -/
def glfwInit (env : Env) (w : World) : Bool × World :=
  (env.glfwInitResult, { w.log .glfwInit with glfwUp := env.glfwInitResult })

/-- `glfwTerminate()`: destroys the window and shuts the library down. -/
def glfwTerminate (w : World) : World :=
  { w.log .glfwTerminate with glfwUp := false, window := none, contextCurrent := none }

/-- `glfwWindowHint(hint, value)`. -/
def glfwWindowHint (hint : WindowHint) (value : HintValue) (w : World) : World :=
  { w.log (.glfwWindowHint hint value) with hints := w.hints ++ [(hint, value)] }

/-- `glfwCreateWindow(width, height, title, NULL, NULL)`: a handle, or `none`
for `NULL`. -/
def glfwCreateWindow (env : Env) (width height : Int) (title : String) (w : World) :
    Option Nat × World :=
  let w := w.log (.glfwCreateWindow width height title)
  if env.createWindowResult then
    (some 1, { w with window := some 1, framebufferSize := (width, height), shouldClose := false })
  else
    (none, w)

/-- `glfwMakeContextCurrent(window)`: the first time a context is made current
its viewport is the size of the window. -/
def glfwMakeContextCurrent (window : Nat) (w : World) : World :=
  { w.log (.glfwMakeContextCurrent window) with
    contextCurrent := some window
    viewport := (0, 0, w.framebufferSize.1, w.framebufferSize.2) }

/-- `glfwSwapInterval(interval)`. -/
def glfwSwapInterval (interval : Int) (w : World) : World :=
  { w.log (.glfwSwapInterval interval) with swapInterval := interval }

/-- `glewInit()`: returns a `GLenum`, `GLEW_OK = 0` on success. -/
def glewInit (env : Env) (w : World) : Nat × World :=
  (env.glewInitResult, w.log .glewInit)

/-- `glViewport(x, y, width, height)`. -/
def glViewport (x y width height : Int) (w : World) : World :=
  { w.log (.glViewport x y width height) with viewport := (x, y, width, height) }

/-- `glCreateShader(stage)`: a fresh name and an empty shader object. -/
def glCreateShader (stage : ShaderStage) (w : World) : Nat × World :=
  let name := w.nextShaderName
  (name, { w.log (.glCreateShader stage) with
    nextShaderName := name + 1
    shaders := store name ⟨stage, none, false⟩ w.shaders })

/-- `glShaderSource(shader, 1, &src, NULL)`. -/
def glShaderSource (shader : Nat) (src : Glsl) (w : World) : World :=
  { w.log (.glShaderSource shader) with
    shaders := adjust shader (fun s => { s with source := some src }) w.shaders }

/-- Whether a source is a shader of the given stage. -/
def Glsl.compilesAs : Glsl → ShaderStage → Bool
  | .vertexMain _, .GL_VERTEX_SHADER => true
  | .fragmentMain _, .GL_FRAGMENT_SHADER => true
  | _, _ => false

/-- `glCompileShader(shader)`. -/
def glCompileShader (shader : Nat) (w : World) : World :=
  { w.log (.glCompileShader shader) with
    shaders := adjust shader
      (fun s => { s with compiled := match s.source with
                                     | some src => src.compilesAs s.stage
                                     | none => false })
      w.shaders }

/-- `glCreateProgram()`: program names come from the same pool as shader names. -/
def glCreateProgram (w : World) : Nat × World :=
  let name := w.nextShaderName
  (name, { w.log .glCreateProgram with
    nextShaderName := name + 1
    programs := store name ⟨[], false⟩ w.programs })

/-- `glAttachShader(program, shader)`. -/
def glAttachShader (program shader : Nat) (w : World) : World :=
  { w.log (.glAttachShader program shader) with
    programs := adjust program (fun p => { p with attached := p.attached ++ [shader] }) w.programs }

/-- `glLinkProgram(program)`: links when every attached shader is compiled. -/
def glLinkProgram (program : Nat) (w : World) : World :=
  { w.log (.glLinkProgram program) with
    programs := adjust program
      (fun p => { p with linked := p.attached.all fun s =>
                    match w.shaders.lookup s with
                    | some o => o.compiled
                    | none => false })
      w.programs }

/-- `glGenVertexArrays(n, arrays)`: `n` unused names. -/
def glGenVertexArrays (n : Nat) (w : World) : List Nat × World :=
  (List.range' w.nextArrayName n,
   { w.log (.glGenVertexArrays n) with nextArrayName := w.nextArrayName + n })

/-- `glGenBuffers(n, buffers)`: `n` unused names. -/
def glGenBuffers (n : Nat) (w : World) : List Nat × World :=
  (List.range' w.nextBufferName n,
   { w.log (.glGenBuffers n) with nextBufferName := w.nextBufferName + n })

/-- `glBindVertexArray(array)`: the object is created on its first bind. -/
def glBindVertexArray (array : Nat) (w : World) : World :=
  { w.log (.glBindVertexArray array) with
    vertexArrayBinding := array
    arrays := match w.arrays.lookup array with
              | some _ => w.arrays
              | none => store array ⟨0, [], []⟩ w.arrays }

/-- `glBindBuffer(target, buffer)`: the element array binding belongs to the
bound vertex array object. -/
def glBindBuffer (target : BufferTarget) (buffer : Nat) (w : World) : World :=
  match target with
  | .GL_ARRAY_BUFFER =>
    { w.log (.glBindBuffer target buffer) with arrayBufferBinding := buffer }
  | .GL_ELEMENT_ARRAY_BUFFER =>
    { w.log (.glBindBuffer target buffer) with
      arrays := adjust w.vertexArrayBinding (fun v => { v with elementBuffer := buffer }) w.arrays }

/-- The buffer bound to `target`; `0` when none is. -/
def World.boundBuffer (w : World) : BufferTarget → Nat
  | .GL_ARRAY_BUFFER => w.arrayBufferBinding
  | .GL_ELEMENT_ARRAY_BUFFER =>
    match w.arrays.lookup w.vertexArrayBinding with
    | some v => v.elementBuffer
    | none => 0

/-- `glBufferData(target, size, data, usage)`: fills the buffer bound to
`target`; an error without effect when none is bound. -/
def glBufferData (target : BufferTarget) (size : Nat) (data : BufferData) (usage : BufferUsage)
    (w : World) : World :=
  let w1 := w.log (.glBufferData target size data usage)
  if w.boundBuffer target = 0 then w1
  else { w1 with buffers := store (w.boundBuffer target) data w.buffers }

/-- `glVertexAttribPointer(index, size, type, normalized, stride, offset)`:
recorded in the bound vertex array together with the current
`GL_ARRAY_BUFFER` binding. -/
def glVertexAttribPointer (index size : Nat) (type : DataType) (normalized : Bool)
    (stride offset : Nat) (w : World) : World :=
  { w.log (.glVertexAttribPointer index size type normalized stride offset) with
    arrays := adjust w.vertexArrayBinding
      (fun v => { v with attribs := (store index
                    (⟨size, type, normalized, stride, offset⟩, w.arrayBufferBinding) v.attribs) })
      w.arrays }

/-- `glEnableVertexAttribArray(index)`. -/
def glEnableVertexAttribArray (index : Nat) (w : World) : World :=
  { w.log (.glEnableVertexAttribArray index) with
    arrays := adjust w.vertexArrayBinding
      (fun v => { v with enabled := index :: v.enabled }) w.arrays }

/-- `glfwSetFramebufferSizeCallback(window, callback)`. -/
def glfwSetFramebufferSizeCallback (window : Nat) (callback : Callback) (w : World) : World :=
  { w.log (.glfwSetFramebufferSizeCallback window callback) with
    framebufferSizeCallback := some callback }

/-- `glfwWindowShouldClose(window)`: reads the close flag. -/
def glfwWindowShouldClose (window : Nat) (w : World) : Bool × World :=
  (w.shouldClose, w.log (.glfwWindowShouldClose window))

/-- `glfwGetKey(window, key)`: the key state the outside world reports in
this frame. -/
def glfwGetKey (t : TickInput) (window : Nat) (key : Key) (w : World) : KeyAction × World :=
  (match key with
   | .GLFW_KEY_ESCAPE => t.escape,
   w.log (.glfwGetKey window key))

/-- `glfwSetWindowShouldClose(window, value)`. -/
def glfwSetWindowShouldClose (window : Nat) (value : Bool) (w : World) : World :=
  { w.log (.glfwSetWindowShouldClose window value) with shouldClose := value }

/-- `glClearColor(red, green, blue, alpha)`. -/
def glClearColor (red green blue alpha : ℚ) (w : World) : World :=
  { w.log (.glClearColor red green blue alpha) with clearColor := ⟨red, green, blue, alpha⟩ }

/-- `glClear(mask)`: fills the colour buffer with the current clear colour. -/
def glClear (mask : ClearMask) (w : World) : World :=
  { w.log (.glClear mask) with rendered := w.rendered ++ [.clear mask w.clearColor] }

/-- `glUseProgram(program)`. -/
def glUseProgram (program : Nat) (w : World) : World :=
  { w.log (.glUseProgram program) with currentProgram := program }

/-- `glDrawElements(mode, count, type, offset)`: a draw with the current
program and the bound vertex array. -/
def glDrawElements (mode : DrawMode) (count : Nat) (type : DataType) (offset : Nat)
    (w : World) : World :=
  { w.log (.glDrawElements mode count type offset) with
    rendered := w.rendered ++
      [.draw w.currentProgram w.vertexArrayBinding mode count type offset] }

/-- `glfwSwapBuffers(window)`: presents the frame. -/
def glfwSwapBuffers (window : Nat) (w : World) : World :=
  { w.log (.glfwSwapBuffers window) with rendered := w.rendered ++ [.present] }

/-! ## `main.c` -/

/-- `void framebuffer_size_callback(GLFWwindow *window, int width, int height)`
(lines 10-13). -/
def framebuffer_size_callback (_window : Nat) (width height : Int) (w : World) : World :=
  glViewport 0 0 width height w

/-- Run a registered callback. -/
def Callback.invoke : Callback → Nat → Int → Int → World → World
  | .framebuffer_size_callback => HelloTrans.framebuffer_size_callback

/-- Deliver one framebuffer-size event to the registered callback, if any. -/
def deliverResize (w : World) (size : Int × Int) : World :=
  match w.framebufferSizeCallback with
  | some callback => callback.invoke (w.window.getD 0) size.1 size.2 w
  | none => w

/-- `glfwPollEvents()`: a close request sets the close flag (no close callback
is installed that could clear it), and every framebuffer-size event is handed
to the registered callback. -/
def glfwPollEvents (events : Events) (w : World) : World :=
  let w := w.log .glfwPollEvents
  let w := if events.closeRequested then { w with shouldClose := true } else w
  events.resizes.foldl deliverResize w

/-- `void processInput(GLFWwindow *window)` (lines 15-18). -/
def processInput (t : TickInput) (window : Nat) (w : World) : World :=
  let (action, w) := glfwGetKey t window .GLFW_KEY_ESCAPE w
  if action = .GLFW_PRESS then glfwSetWindowShouldClose window true w else w

/-- The local variables of `main` that are live in the render loop. -/
structure Locals where
  window : Nat
  vertex_shader : Nat
  fragment_shader_blue : Nat
  fragment_shader_pink : Nat
  fragment_shader_white : Nat
  shader_program_blue : Nat
  shader_program_pink : Nat
  shader_program_white : Nat
  VBOs : List Nat
  VAOs : List Nat
  EBOs : List Nat
deriving DecidableEq

/-- Lines 148-158, and likewise 160-206: bind `VAOs[i]`, upload the vertex
array to `VBOs[i]` and the index array to `EBOs[i]`, describe attribute 0. -/
def setupStripe (array vbo ebo : Nat) (vertices : List ℚ) (w : World) : World :=
  let w := glBindVertexArray array w
  let w := glBindBuffer .GL_ARRAY_BUFFER vbo w
  let w := glBufferData .GL_ARRAY_BUFFER (sizeofArray vertices.length) (.floats vertices)
    .GL_STATIC_DRAW w
  let w := glBindBuffer .GL_ELEMENT_ARRAY_BUFFER ebo w
  let w := glBufferData .GL_ELEMENT_ARRAY_BUFFER (sizeofArray stripe_indices.length)
    (.uints stripe_indices) .GL_STATIC_DRAW w
  let w := glVertexAttribPointer 0 3 .GL_FLOAT false 0 0 w
  glEnableVertexAttribArray 0 w

/-- Lines 60-209 of `main`: shaders, programs, vertex data, callback. -/
def setup (window : Nat) (w : World) : Locals × World :=
  let (vertex_shader, w) := glCreateShader .GL_VERTEX_SHADER w
  let w := glShaderSource vertex_shader vertex_shader_src w
  let w := glCompileShader vertex_shader w
  let (fragment_shader_blue, w) := glCreateShader .GL_FRAGMENT_SHADER w
  let w := glShaderSource fragment_shader_blue fragment_shader_src_blue w
  let w := glCompileShader fragment_shader_blue w
  let (fragment_shader_pink, w) := glCreateShader .GL_FRAGMENT_SHADER w
  let w := glShaderSource fragment_shader_pink fragment_shader_src_pink w
  let w := glCompileShader fragment_shader_pink w
  let (fragment_shader_white, w) := glCreateShader .GL_FRAGMENT_SHADER w
  let w := glShaderSource fragment_shader_white fragment_shader_src_white w
  let w := glCompileShader fragment_shader_white w
  let (shader_program_blue, w) := glCreateProgram w
  let w := glAttachShader shader_program_blue vertex_shader w
  let w := glAttachShader shader_program_blue fragment_shader_blue w
  let w := glLinkProgram shader_program_blue w
  let (shader_program_pink, w) := glCreateProgram w
  let w := glAttachShader shader_program_pink vertex_shader w
  let w := glAttachShader shader_program_pink fragment_shader_pink w
  let w := glLinkProgram shader_program_pink w
  let (shader_program_white, w) := glCreateProgram w
  let w := glAttachShader shader_program_white vertex_shader w
  let w := glAttachShader shader_program_white fragment_shader_white w
  let w := glLinkProgram shader_program_white w
  let (VAOs, w) := glGenVertexArrays 5 w
  let (VBOs, w) := glGenBuffers 5 w
  let (EBOs, w) := glGenBuffers 5 w
  let w := setupStripe (VAOs.getD 0 0) (VBOs.getD 0 0) (EBOs.getD 0 0) stripe_blue_top w
  let w := setupStripe (VAOs.getD 1 0) (VBOs.getD 1 0) (EBOs.getD 1 0) stripe_pink_top w
  let w := setupStripe (VAOs.getD 2 0) (VBOs.getD 2 0) (EBOs.getD 2 0) stripe_white w
  let w := setupStripe (VAOs.getD 3 0) (VBOs.getD 3 0) (EBOs.getD 3 0) stripe_pink_bottom w
  let w := setupStripe (VAOs.getD 4 0) (VBOs.getD 4 0) (EBOs.getD 4 0) stripe_blue_bottom w
  let w := glfwSetFramebufferSizeCallback window .framebuffer_size_callback w
  ({ window, vertex_shader, fragment_shader_blue, fragment_shader_pink, fragment_shader_white,
     shader_program_blue, shader_program_pink, shader_program_white, VBOs, VAOs, EBOs }, w)

/-- Lines 214-238: the body of the render loop. -/
def loopBody (l : Locals) (t : TickInput) (w : World) : World :=
  let w := processInput t l.window w
  let w := glClearColor 0.0 0.0 0.0 1.0 w
  let w := glClear .GL_COLOR_BUFFER_BIT w
  let w := glUseProgram l.shader_program_blue w
  let w := glBindVertexArray (l.VAOs.getD 0 0) w
  let w := glDrawElements .GL_TRIANGLES 6 .GL_UNSIGNED_INT 0 w
  let w := glBindVertexArray (l.VAOs.getD 4 0) w
  let w := glDrawElements .GL_TRIANGLES 6 .GL_UNSIGNED_INT 0 w
  let w := glUseProgram l.shader_program_pink w
  let w := glBindVertexArray (l.VAOs.getD 1 0) w
  let w := glDrawElements .GL_TRIANGLES 6 .GL_UNSIGNED_INT 0 w
  let w := glBindVertexArray (l.VAOs.getD 3 0) w
  let w := glDrawElements .GL_TRIANGLES 6 .GL_UNSIGNED_INT 0 w
  let w := glUseProgram l.shader_program_white w
  let w := glBindVertexArray (l.VAOs.getD 2 0) w
  let w := glDrawElements .GL_TRIANGLES 6 .GL_UNSIGNED_INT 0 w
  let w := glfwSwapBuffers l.window w
  glfwPollEvents t.events w

/-- Lines 213-239: `while (!glfwWindowShouldClose(window)) { ... }`, started at
frame number `k`.  `none` when the fuel runs out first. -/
def renderLoop (l : Locals) (ticks : Nat → TickInput) : Nat → Nat → World → Option World
  | 0, _, _ => none
  | fuel + 1, k, w =>
    let (close, w) := glfwWindowShouldClose l.window w
    if close then some w
    else renderLoop l ticks fuel (k + 1) (loopBody l (ticks k) w)

/-- Lines 36-58 of `main`: either an early `return` with its status, or the
window handle with which `main` goes on. -/
def startup (env : Env) : Except (Int × World) (Nat × World) :=
  let w := World.start
  let (ok, w) := glfwInit env w
  if !ok then
    let w := printf "Failed to initialise GLFW\n" w
    .error (1, w)
  else
    let w := glfwWindowHint .GLFW_CONTEXT_VERSION_MAJOR (.number 3) w
    let w := glfwWindowHint .GLFW_CONTEXT_VERSION_MINOR (.number 3) w
    let w := glfwWindowHint .GLFW_OPENGL_PROFILE .GLFW_OPENGL_CORE_PROFILE w
    let (window, w) := glfwCreateWindow env SCREEN_WIDTH SCREEN_HEIGHT "hello_trans" w
    match window with
    | none =>
      let w := printf "Failed to create GLFW window\n" w
      let w := glfwTerminate w
      .error (1, w)
    | some window =>
      let w := glfwMakeContextCurrent window w
      let w := glfwSwapInterval 1 w
      let (err, w) := glewInit env w
      if err != 0 then
        let w := printf "Failed to initialise GLEW\n" w
        .error (1, w)
      else
        .ok (window, w)

/-- `int main()` (lines 35-244): the exit status and the final world, or
`none` when the fuel runs out inside the render loop. -/
def main (env : Env) (fuel : Nat) : Option (Int × World) :=
  match startup env with
  | .error exit => some exit
  | .ok (window, w) =>
    let (l, w) := setup window w
    match renderLoop l env.ticks fuel 0 w with
    | none => none
    | some w =>
      let w := glfwTerminate w
      some (0, w)

/-! ## The run in which start-up succeeds -/

/-- The environment in which `glfwInit`, `glfwCreateWindow` and `glewInit` all
succeed; every such environment is of this form. -/
def Env.allSucceed (ticks : Nat → TickInput) : Env :=
  ⟨true, true, 0, ticks⟩

/-- The window handle and the world at line 60, after a successful start-up. -/
def started : Nat × World :=
  match startup (Env.allSucceed fun _ => ⟨.GLFW_RELEASE, ⟨false, []⟩⟩) with
  | .ok r => r
  | .error (_, w) => (0, w)

/-- The values of the local variables of `main` when the render loop starts. -/
def locals : Locals := (setup started.1 started.2).1

/-- The world when the render loop starts. -/
def setupWorld : World := (setup started.1 started.2).2

/-- The world at the loop guard of frame `k`, if the guard let frames
`0 .. k-1` run. -/
def frameStart (ticks : Nat → TickInput) : Nat → World
  | 0 => setupWorld
  | k + 1 => loopBody locals (ticks k) (glfwWindowShouldClose locals.window (frameStart ticks k)).2

/-- The render operations issued during frame `k`. -/
def frameOps (ticks : Nat → TickInput) (k : Nat) : List RenderOp :=
  (frameStart ticks (k + 1)).rendered.drop (frameStart ticks k).rendered.length

/-- The library calls made during frame `k`, the guard that admits it
included. -/
def frameCalls (ticks : Nat → TickInput) (k : Nat) : List Call :=
  (frameStart ticks (k + 1)).trace.drop (frameStart ticks k).trace.length

/-! ## What a draw call reads -/

/-- The layout and the float data that attribute `index` of a vertex array
reads. -/
def World.attribSource (w : World) (array index : Nat) : Option (AttribLayout × List ℚ) :=
  match w.arrays.lookup array with
  | none => none
  | some v =>
    match v.attribs.lookup index with
    | none => none
    | some (layout, buffer) =>
      match w.buffers.lookup buffer with
      | some (.floats data) => some (layout, data)
      | _ => none

/-- The index data of a vertex array: the contents of its element buffer. -/
def World.indexSource (w : World) (array : Nat) : Option (List Nat) :=
  match w.arrays.lookup array with
  | none => none
  | some v =>
    match w.buffers.lookup v.elementBuffer with
    | some (.uints data) => some data
    | _ => none

/-- The fragment shader `main` of a linked program. -/
def World.fragmentMain (w : World) (program : Nat) : Option (Vec4 → Vec4) :=
  match w.programs.lookup program with
  | none => none
  | some p =>
    if p.linked then
      p.attached.findSome? fun s =>
        match w.shaders.lookup s with
        | some ⟨.GL_FRAGMENT_SHADER, some (.fragmentMain f), true⟩ => some f
        | _ => none
    else none

/-- The vertex shader `main` of a linked program. -/
def World.vertexMain (w : World) (program : Nat) : Option (Vec3 → Vec4) :=
  match w.programs.lookup program with
  | none => none
  | some p =>
    if p.linked then
      p.attached.findSome? fun s =>
        match w.shaders.lookup s with
        | some ⟨.GL_VERTEX_SHADER, some (.vertexMain f), true⟩ => some f
        | _ => none
    else none

/-- The layout `main.c` gives attribute 0 (line 157 and its four repeats):
`glVertexAttribPointer(0, 3, GL_FLOAT, GL_FALSE, 0, (void*)0)`. -/
def aPosLayout : AttribLayout := ⟨3, .GL_FLOAT, false, 0, 0⟩

/-- Component `c` of vertex `i` of float data read through a layout; a stride
of `0` means tightly packed. -/
def fetchComponent (layout : AttribLayout) (data : List ℚ) (i c : Nat) : ℚ :=
  data.getD (layout.offset / 4 + i * (if layout.stride = 0 then layout.size else layout.stride / 4)
    + c) 0

/-- The `vec3 aPos` of vertex `i`. -/
def fetchVertex (layout : AttribLayout) (data : List ℚ) (i : Nat) : Vec3 :=
  ⟨fetchComponent layout data i 0, fetchComponent layout data i 1, fetchComponent layout data i 2⟩

/-- `GL_TRIANGLES`: every three consecutive elements form one triangle. -/
def triangles {α : Type} : List α → List (α × α × α)
  | a :: b :: c :: rest => (a, b, c) :: triangles rest
  | _ => []

/-- The triangles that an indexed `GL_TRIANGLES` draw assembles from float
data and an index list. -/
def assemble (layout : AttribLayout) (data : List ℚ) (indices : List Nat) :
    List (Vec3 × Vec3 × Vec3) :=
  triangles (indices.map (fetchVertex layout data))

/-- Perspective division: clip coordinates to normalised device coordinates. -/
def ndc (v : Vec4) : Vec3 :=
  ⟨v.x / v.w, v.y / v.w, v.z / v.w⟩

/-- The triangles a draw operation puts on the screen in world `w`, in
normalised device coordinates: the indexed vertices of the bound vertex array,
each run through the vertex shader of the bound program. -/
def World.drawnTriangles (w : World) : RenderOp → List (Vec3 × Vec3 × Vec3)
  | .draw program array .GL_TRIANGLES count .GL_UNSIGNED_INT offset =>
    match w.vertexMain program, w.attribSource array 0, w.indexSource array with
    | some shade, some (layout, data), some indices =>
      triangles (((indices.drop (offset / 4)).take count).map fun i =>
        ndc (shade (fetchVertex layout data i)))
    | _, _, _ => []
  | _ => []

/-- The colour a draw operation gives the fragment at `position`. -/
def World.drawnColor (w : World) (position : Vec4) : RenderOp → Option Vec4
  | .draw program _ _ _ _ _ => (w.fragmentMain program).map fun f => f position
  | _ => none

/-- Whether a render operation is a draw. -/
def RenderOp.isDraw : RenderOp → Bool
  | .draw _ _ _ _ _ _ => true
  | _ => false

/-- The index count of a render operation. -/
def RenderOp.indexCount : RenderOp → Nat
  | .draw _ _ _ count _ _ => count
  | _ => 0

/-- Whether a library call is a draw call. -/
def Call.isDraw : Call → Bool
  | .glDrawElements _ _ _ _ => true
  | _ => false

/-! ## Plane geometry of the stripes -/

/-- Twice the signed area of the triangle `a b p`, in the x-y plane. -/
def orient (a b p : Vec3) : ℚ :=
  (b.x - a.x) * (p.y - a.y) - (b.y - a.y) * (p.x - a.x)

/-- The area of a triangle. -/
def triangleArea (t : Vec3 × Vec3 × Vec3) : ℚ :=
  |orient t.1 t.2.1 t.2.2| / 2

/-- The point `p` lies in the closed triangle `t`. -/
def inTriangle (t : Vec3 × Vec3 × Vec3) (p : Vec3) : Prop :=
  (0 ≤ orient t.1 t.2.1 p ∧ 0 ≤ orient t.2.1 t.2.2 p ∧ 0 ≤ orient t.2.2 t.1 p) ∨
  (orient t.1 t.2.1 p ≤ 0 ∧ orient t.2.1 t.2.2 p ≤ 0 ∧ orient t.2.2 t.1 p ≤ 0)

/-- The point `p` lies in the interior of the triangle `t`. -/
def inInterior (t : Vec3 × Vec3 × Vec3) (p : Vec3) : Prop :=
  (0 < orient t.1 t.2.1 p ∧ 0 < orient t.2.1 t.2.2 p ∧ 0 < orient t.2.2 t.1 p) ∨
  (orient t.1 t.2.1 p < 0 ∧ orient t.2.1 t.2.2 p < 0 ∧ orient t.2.2 t.1 p < 0)

/-- The point `p` lies on the closed segment from `a` to `b`. -/
def onSegment (a b p : Vec3) : Prop :=
  orient a b p = 0 ∧ min a.x b.x ≤ p.x ∧ p.x ≤ max a.x b.x ∧ min a.y b.y ≤ p.y ∧ p.y ≤ max a.y b.y

instance (t : Vec3 × Vec3 × Vec3) (p : Vec3) : Decidable (inTriangle t p) := by
  unfold inTriangle; infer_instance

instance (t : Vec3 × Vec3 × Vec3) (p : Vec3) : Decidable (inInterior t p) := by
  unfold inInterior; infer_instance

instance (a b p : Vec3) : Decidable (onSegment a b p) := by
  unfold onSegment; infer_instance

/-- The vertex array uploaded through `VBOs[i]` (lines 148-206). -/
def stripeOfSlot : Fin 5 → List ℚ
  | 0 => stripe_blue_top
  | 1 => stripe_pink_top
  | 2 => stripe_white
  | 3 => stripe_pink_bottom
  | 4 => stripe_blue_bottom

/-- The four vertices of a stripe array, as attribute 0 reads them. -/
def quad (data : List ℚ) : List Vec3 :=
  (List.range (data.length / 3)).map (fetchVertex aPosLayout data)

/-- Smallest y coordinate of the vertices of a stripe array. -/
def yMin (data : List ℚ) : ℚ :=
  match (quad data).map (fun v => v.y) with
  | [] => 0
  | y :: ys => ys.foldl min y

/-- Largest y coordinate of the vertices of a stripe array. -/
def yMax (data : List ℚ) : ℚ :=
  match (quad data).map (fun v => v.y) with
  | [] => 0
  | y :: ys => ys.foldl max y

/-- Smallest x coordinate of the vertices of a stripe array. -/
def xMin (data : List ℚ) : ℚ :=
  match (quad data).map (fun v => v.x) with
  | [] => 0
  | x :: xs => xs.foldl min x

/-- Largest x coordinate of the vertices of a stripe array. -/
def xMax (data : List ℚ) : ℚ :=
  match (quad data).map (fun v => v.x) with
  | [] => 0
  | x :: xs => xs.foldl max x

/-- The y extents the data model of the specification lists for the five
bands, top to bottom, as (lower edge, upper edge). -/
def specBand : Fin 5 → ℚ × ℚ
  | 0 => (0.6, 1.0)
  | 1 => (0.2, 0.6)
  | 2 => (-0.2, 0.2)
  | 3 => (-0.6, -0.2)
  | 4 => (-1.0, -0.6)

/-! ## One pass through the loop body, spelled out -/

/-- The render operations of lines 217-237. -/
def frame : List RenderOp :=
  [.clear .GL_COLOR_BUFFER_BIT ⟨0.0, 0.0, 0.0, 1.0⟩,
   .draw locals.shader_program_blue (locals.VAOs.getD 0 0) .GL_TRIANGLES 6 .GL_UNSIGNED_INT 0,
   .draw locals.shader_program_blue (locals.VAOs.getD 4 0) .GL_TRIANGLES 6 .GL_UNSIGNED_INT 0,
   .draw locals.shader_program_pink (locals.VAOs.getD 1 0) .GL_TRIANGLES 6 .GL_UNSIGNED_INT 0,
   .draw locals.shader_program_pink (locals.VAOs.getD 3 0) .GL_TRIANGLES 6 .GL_UNSIGNED_INT 0,
   .draw locals.shader_program_white (locals.VAOs.getD 2 0) .GL_TRIANGLES 6 .GL_UNSIGNED_INT 0,
   .present]

/-- The library calls of `processInput` (lines 16-17). -/
def inputCalls (t : TickInput) : List Call :=
  match t.escape with
  | .GLFW_PRESS =>
    [.glfwGetKey locals.window .GLFW_KEY_ESCAPE, .glfwSetWindowShouldClose locals.window true]
  | .GLFW_RELEASE => [.glfwGetKey locals.window .GLFW_KEY_ESCAPE]

/-- The library calls of lines 217-238. -/
def renderCalls : List Call :=
  [.glClearColor 0.0 0.0 0.0 1.0, .glClear .GL_COLOR_BUFFER_BIT,
   .glUseProgram locals.shader_program_blue,
   .glBindVertexArray (locals.VAOs.getD 0 0),
   .glDrawElements .GL_TRIANGLES 6 .GL_UNSIGNED_INT 0,
   .glBindVertexArray (locals.VAOs.getD 4 0),
   .glDrawElements .GL_TRIANGLES 6 .GL_UNSIGNED_INT 0,
   .glUseProgram locals.shader_program_pink,
   .glBindVertexArray (locals.VAOs.getD 1 0),
   .glDrawElements .GL_TRIANGLES 6 .GL_UNSIGNED_INT 0,
   .glBindVertexArray (locals.VAOs.getD 3 0),
   .glDrawElements .GL_TRIANGLES 6 .GL_UNSIGNED_INT 0,
   .glUseProgram locals.shader_program_white,
   .glBindVertexArray (locals.VAOs.getD 2 0),
   .glDrawElements .GL_TRIANGLES 6 .GL_UNSIGNED_INT 0,
   .glfwSwapBuffers locals.window, .glfwPollEvents]

/-- The calls the resize callback makes for a list of framebuffer-size
events. -/
def resizeCalls (rs : List (Int × Int)) : List Call :=
  rs.map fun r => .glViewport 0 0 r.1 r.2

/-- The viewport after a list of framebuffer-size events has been handled by
the resize callback. -/
def viewportAfter (rs : List (Int × Int)) (vp : Int × Int × Int × Int) : Int × Int × Int × Int :=
  rs.foldl (fun _ r => (0, 0, r.1, r.2)) vp

/-- The vertex array objects that the setup phase leaves behind. -/
def setupArrays : List (Nat × VaoObj) :=
  [(5, ⟨10, [(0, aPosLayout, 5)], [0]⟩), (4, ⟨9, [(0, aPosLayout, 4)], [0]⟩),
   (3, ⟨8, [(0, aPosLayout, 3)], [0]⟩), (2, ⟨7, [(0, aPosLayout, 2)], [0]⟩),
   (1, ⟨6, [(0, aPosLayout, 1)], [0]⟩)]

/-- The world right after the loop guard has been evaluated in `w`. -/
def guarded (w : World) : World :=
  (glfwWindowShouldClose locals.window w).2

/-- The outside world asks for the window to close during frame `k`: escape
reads as pressed, or the poll delivers a close request. -/
def closesAt (ticks : Nat → TickInput) (k : Nat) : Bool :=
  decide ((ticks k).escape = .GLFW_PRESS) || (ticks k).events.closeRequested

/-- Number of newline characters written to standard output. -/
def lineCount (out : List String) : Nat :=
  (out.map fun s => s.toList.count (Char.ofNat 10)).sum

/-- What the render loop finds in place and never changes. -/
structure Prepared (w : World) : Prop where
  callback : w.framebufferSizeCallback = some .framebuffer_size_callback
  arrays : w.arrays = setupWorld.arrays
  buffers : w.buffers = setupWorld.buffers
  programs : w.programs = setupWorld.programs
  shaders : w.shaders = setupWorld.shaders
  stdout : w.stdout = []
  glfwUp : w.glfwUp = true

/-- The vertex array a render operation draws from. -/
def RenderOp.array : RenderOp → Option Nat
  | .draw _ array _ _ _ _ => some array
  | _ => none

/-- The program `main.c` has in use when it draws `VAOs[i]` (lines 221-235). -/
def slotProgram : Fin 5 → Nat
  | 0 => locals.shader_program_blue
  | 1 => locals.shader_program_pink
  | 2 => locals.shader_program_white
  | 3 => locals.shader_program_pink
  | 4 => locals.shader_program_blue

/-- The draw of `VAOs[i]` in the loop body. -/
def slotDraw (i : Fin 5) : RenderOp :=
  .draw (slotProgram i) (locals.VAOs.getD i 0) .GL_TRIANGLES 6 .GL_UNSIGNED_INT 0

/-- The band colours of the specification, top to bottom: blue, pink, white,
pink, blue. -/
def specColour : Fin 5 → Vec4
  | 0 => ⟨0.36, 0.81, 0.98, 1.0⟩
  | 1 => ⟨0.96, 0.62, 0.72, 1.0⟩
  | 2 => ⟨1, 1, 1, 1⟩
  | 3 => ⟨0.96, 0.62, 0.72, 1.0⟩
  | 4 => ⟨0.36, 0.81, 0.98, 1.0⟩

/-- An outside world in which nothing happens: escape is never pressed and no
event is ever delivered. -/
def quiet : Nat → TickInput :=
  fun _ => ⟨.GLFW_RELEASE, ⟨false, []⟩⟩

/-- An outside world in which escape reads as pressed in frame `n` and nothing
else happens. -/
def escapeAt (n : Nat) : Nat → TickInput :=
  fun k => ⟨if k = n then .GLFW_PRESS else .GLFW_RELEASE, ⟨false, []⟩⟩

/-! ## Auxiliary facts -/

theorem locals_eq :
    locals = ⟨1, 1, 2, 3, 4, 5, 6, 7, [1, 2, 3, 4, 5], [1, 2, 3, 4, 5], [6, 7, 8, 9, 10]⟩ := by
  rfl

theorem setupWorld_arrays : setupWorld.arrays = setupArrays := by decide

theorem main_allSucceed (ticks : Nat → TickInput) (fuel : Nat) :
    main (Env.allSucceed ticks) fuel =
      (renderLoop locals ticks fuel 0 setupWorld).map fun w => (0, glfwTerminate w) := by
  have h : main (Env.allSucceed ticks) fuel =
      match renderLoop locals ticks fuel 0 setupWorld with
      | none => none
      | some w => some ((0 : Int), glfwTerminate w) := rfl
  rw [h]
  cases renderLoop locals ticks fuel 0 setupWorld <;> rfl

theorem foldl_snoc {α : Type} (l acc : List α) :
    l.foldl (fun acc c => acc ++ [c]) acc = acc ++ l := by
  induction l generalizing acc with
  | nil => simp
  | cons a l ih => simp [ih]

theorem foldl_deliverResize (rs : List (Int × Int)) (w : World)
    (h : w.framebufferSizeCallback = some .framebuffer_size_callback) :
    rs.foldl deliverResize w =
      { w with trace := w.trace ++ resizeCalls rs, viewport := viewportAfter rs w.viewport } := by
  induction rs generalizing w with
  | nil => cases w; simp [resizeCalls, viewportAfter]
  | cons r rs ih =>
    obtain ⟨tr, so, up, hi, wi, fs, cc, si, sc, cb, n1, n2, n3, sh, pr, bu, ar, ab, vb, cp, clc,
      vp, re⟩ := w
    dsimp only at h
    subst h
    rw [List.foldl_cons]
    have e : deliverResize ⟨tr, so, up, hi, wi, fs, cc, si, sc, some .framebuffer_size_callback,
        n1, n2, n3, sh, pr, bu, ar, ab, vb, cp, clc, vp, re⟩ r =
        ⟨tr ++ [.glViewport 0 0 r.1 r.2], so, up, hi, wi, fs, cc, si, sc,
          some .framebuffer_size_callback, n1, n2, n3, sh, pr, bu, ar, ab, vb, cp, clc,
          (0, 0, r.1, r.2), re⟩ := rfl
    rw [e, ih _ rfl]
    simp [resizeCalls, viewportAfter]

theorem loopBody_resizes (e : KeyAction) (c : Bool) (rs : List (Int × Int)) (w : World) :
    loopBody locals ⟨e, c, rs⟩ w = rs.foldl deliverResize (loopBody locals ⟨e, c, []⟩ w) := rfl

/-- One pass through the loop body, as an update of the world. -/
theorem loopBody_eq (t : TickInput) (w : World)
    (h : w.framebufferSizeCallback = some .framebuffer_size_callback)
    (ha : w.arrays = setupWorld.arrays) :
    loopBody locals t w =
      { w with
        trace := w.trace ++ inputCalls t ++ renderCalls ++ resizeCalls t.events.resizes
        shouldClose := w.shouldClose || decide (t.escape = .GLFW_PRESS) || t.events.closeRequested
        clearColor := ⟨0.0, 0.0, 0.0, 1.0⟩
        currentProgram := locals.shader_program_white
        vertexArrayBinding := locals.VAOs.getD 2 0
        rendered := w.rendered ++ frame
        viewport := viewportAfter t.events.resizes w.viewport } := by
  obtain ⟨e, c, rs⟩ := t
  obtain ⟨tr, so, up, hi, wi, fs, cc, si, sc, cb, n1, n2, n3, sh, pr, bu, ar, ab, vb, cp, clc,
    vp, re⟩ := w
  rw [setupWorld_arrays] at ha
  dsimp only at h ha
  subst h ha
  have e0 : loopBody ⟨1, 1, 2, 3, 4, 5, 6, 7, [1, 2, 3, 4, 5], [1, 2, 3, 4, 5], [6, 7, 8, 9, 10]⟩
      ⟨e, c, []⟩ ⟨tr, so, up, hi, wi, fs, cc, si, sc,
      some .framebuffer_size_callback, n1, n2, n3, sh, pr, bu, setupArrays, ab, vb, cp, clc,
      vp, re⟩ =
      ⟨(inputCalls ⟨e, c, []⟩ ++ renderCalls).foldl (fun acc c => acc ++ [c]) tr,
        so, up, hi, wi, fs, cc, si, sc || decide (e = .GLFW_PRESS) || c,
        some .framebuffer_size_callback, n1, n2, n3, sh, pr, bu, setupArrays, ab, 3, 7,
        ⟨0.0, 0.0, 0.0, 1.0⟩, vp, frame.foldl (fun acc c => acc ++ [c]) re⟩ := by
    cases e <;> cases c <;> cases sc <;> rfl
  rw [loopBody_resizes, locals_eq, e0, foldl_deliverResize _ _ rfl, foldl_snoc, foldl_snoc]
  simp [inputCalls]

theorem prepared_setupWorld : Prepared setupWorld :=
  ⟨rfl, rfl, rfl, rfl, rfl, rfl, rfl⟩

theorem prepared_guarded {w : World} (h : Prepared w) : Prepared (guarded w) :=
  ⟨h.callback, h.arrays, h.buffers, h.programs, h.shaders, h.stdout, h.glfwUp⟩

theorem prepared_loopBody (t : TickInput) {w : World} (h : Prepared w) :
    Prepared (loopBody locals t w) := by
  rw [loopBody_eq t w h.callback h.arrays]
  exact ⟨h.callback, h.arrays, h.buffers, h.programs, h.shaders, h.stdout, h.glfwUp⟩

theorem prepared_frameStart (ticks : Nat → TickInput) (k : Nat) :
    Prepared (frameStart ticks k) := by
  induction k with
  | zero => exact prepared_setupWorld
  | succ k ih => exact prepared_loopBody _ (prepared_guarded ih)

/-- Frame `k` as an update of the world at its guard. -/
theorem frameStart_succ (ticks : Nat → TickInput) (k : Nat) :
    frameStart ticks (k + 1) =
      { frameStart ticks k with
        trace := (frameStart ticks k).trace ++ [.glfwWindowShouldClose locals.window] ++
          inputCalls (ticks k) ++ renderCalls ++ resizeCalls (ticks k).events.resizes
        shouldClose := (frameStart ticks k).shouldClose || closesAt ticks k
        clearColor := ⟨0.0, 0.0, 0.0, 1.0⟩
        currentProgram := locals.shader_program_white
        vertexArrayBinding := locals.VAOs.getD 2 0
        rendered := (frameStart ticks k).rendered ++ frame
        viewport := viewportAfter (ticks k).events.resizes (frameStart ticks k).viewport } := by
  have h := prepared_guarded (prepared_frameStart ticks k)
  show loopBody locals (ticks k) (guarded (frameStart ticks k)) = _
  rw [loopBody_eq _ _ h.callback h.arrays]
  simp [guarded, glfwWindowShouldClose, World.log, closesAt, Bool.or_assoc]

theorem frameOps_eq (ticks : Nat → TickInput) (k : Nat) : frameOps ticks k = frame := by
  unfold frameOps
  rw [frameStart_succ]
  exact List.drop_left _ _

theorem frameCalls_eq (ticks : Nat → TickInput) (k : Nat) :
    frameCalls ticks k = [.glfwWindowShouldClose locals.window] ++ inputCalls (ticks k) ++
      renderCalls ++ resizeCalls (ticks k).events.resizes := by
  unfold frameCalls
  rw [frameStart_succ]
  simp only [List.append_assoc]
  exact List.drop_left _ _

theorem shouldClose_succ (ticks : Nat → TickInput) (k : Nat) :
    (frameStart ticks (k + 1)).shouldClose =
      ((frameStart ticks k).shouldClose || closesAt ticks k) := by
  rw [frameStart_succ]

theorem shouldClose_false (ticks : Nat → TickInput) (n : Nat)
    (h : ∀ j, j < n → closesAt ticks j = false) : (frameStart ticks n).shouldClose = false := by
  induction n with
  | zero => rfl
  | succ n ih =>
    rw [shouldClose_succ, ih fun j hj => h j (Nat.lt_succ_of_lt hj), h n (Nat.lt_succ_self n)]
    rfl

theorem shouldClose_true (ticks : Nat → TickInput) (n k : Nat) (hk : n < k)
    (h : closesAt ticks n = true) : (frameStart ticks k).shouldClose = true := by
  induction k with
  | zero => omega
  | succ k ih =>
    rw [shouldClose_succ]
    rcases Nat.lt_succ_iff_lt_or_eq.mp hk with h1 | h1
    · rw [ih h1]; rfl
    · subst h1; rw [h]; simp

theorem renderLoop_succ (ticks : Nat → TickInput) (fuel k : Nat) (w : World) :
    renderLoop locals ticks (fuel + 1) k w =
      if w.shouldClose = true then some (guarded w)
      else renderLoop locals ticks fuel (k + 1) (loopBody locals (ticks k) (guarded w)) := rfl

theorem renderLoop_runs (ticks : Nat → TickInput) (extra n : Nat) :
    ∀ k, (∀ j, j < n → (frameStart ticks (k + j)).shouldClose = false) →
      (frameStart ticks (k + n)).shouldClose = true →
      renderLoop locals ticks (extra + n + 1) k (frameStart ticks k) =
        some (guarded (frameStart ticks (k + n))) := by
  induction n with
  | zero =>
    intro k _ h2
    rw [Nat.add_zero] at h2
    rw [renderLoop_succ, if_pos h2]; rfl
  | succ n ih =>
    intro k h1 h2
    have h0 : (frameStart ticks k).shouldClose = false := h1 0 (Nat.succ_pos n)
    have e : extra + (n + 1) + 1 = (extra + n + 1) + 1 := rfl
    rw [e, renderLoop_succ, if_neg (by simp [h0])]
    have e2 : k + (n + 1) = k + 1 + n := by omega
    rw [e2]
    refine ih (k + 1) (fun j hj => ?_) (by rw [← e2]; exact h2)
    have e3 : k + 1 + j = k + (j + 1) := by omega
    rw [e3]
    exact h1 (j + 1) (Nat.succ_lt_succ hj)

theorem renderLoop_result (ticks : Nat → TickInput) (fuel : Nat) :
    ∀ k w, renderLoop locals ticks fuel k (frameStart ticks k) = some w →
      ∃ n, w = guarded (frameStart ticks n) := by
  induction fuel with
  | zero => intro k w h; simp [renderLoop] at h
  | succ fuel ih =>
    intro k w h
    rw [renderLoop_succ] at h
    by_cases hc : (frameStart ticks k).shouldClose = true
    · rw [if_pos hc] at h
      exact ⟨k, (Option.some.inj h).symm⟩
    · rw [if_neg hc] at h
      exact ih (k + 1) w h

theorem main_closes (ticks : Nat → TickInput) (extra n : Nat)
    (h1 : ∀ j, j < n → closesAt ticks j = false) (h2 : closesAt ticks n = true) :
    main (Env.allSucceed ticks) (extra + n + 2) =
      some (0, glfwTerminate (guarded (frameStart ticks (n + 1)))) := by
  rw [main_allSucceed]
  have h := renderLoop_runs ticks extra (n + 1) 0
    (fun j hj => by
      rw [Nat.zero_add]
      exact shouldClose_false ticks j fun i hi => h1 i (by omega))
    (by rw [Nat.zero_add]; exact shouldClose_true ticks n (n + 1) (Nat.lt_succ_self n) h2)
  rw [Nat.zero_add] at h
  show Option.map _ (renderLoop locals ticks (extra + (n + 1) + 1) 0 (frameStart ticks 0)) = _
  rw [h]
  rfl

theorem main_result (ticks : Nat → TickInput) (fuel : Nat) (r : Int × World)
    (h : main (Env.allSucceed ticks) fuel = some r) :
    ∃ n, r = (0, glfwTerminate (guarded (frameStart ticks n))) := by
  rw [main_allSucceed] at h
  cases hr : renderLoop locals ticks fuel 0 setupWorld with
  | none => rw [hr] at h; simp at h
  | some w =>
    rw [hr] at h
    obtain ⟨n, hn⟩ := renderLoop_result ticks fuel 0 w hr
    refine ⟨n, ?_⟩
    rw [← hn]
    exact (Option.some.inj h).symm

theorem rendered_frameStart (ticks : Nat → TickInput) (k : Nat) :
    (frameStart ticks k).rendered = (List.replicate k frame).flatten := by
  induction k with
  | zero => rfl
  | succ k ih =>
    rw [frameStart_succ]
    show (frameStart ticks k).rendered ++ frame = _
    rw [ih, List.replicate_succ']
    simp


theorem yMin_slot (i : Fin 5) : yMin (stripeOfSlot i) = (specBand i).1 := by
  fin_cases i <;> norm_num [yMin, quad, stripeOfSlot, specBand, fetchVertex, fetchComponent,
    aPosLayout, stripe_blue_top, stripe_pink_top, stripe_white, stripe_pink_bottom,
    stripe_blue_bottom, List.range, List.range.loop]

theorem yMax_slot (i : Fin 5) : yMax (stripeOfSlot i) = (specBand i).2 := by
  fin_cases i <;> norm_num [yMax, quad, stripeOfSlot, specBand, fetchVertex, fetchComponent,
    aPosLayout, stripe_blue_top, stripe_pink_top, stripe_white, stripe_pink_bottom,
    stripe_blue_bottom, List.range, List.range.loop]

theorem xMin_slot (i : Fin 5) : xMin (stripeOfSlot i) = -1 := by
  fin_cases i <;> norm_num [xMin, quad, stripeOfSlot, specBand, fetchVertex, fetchComponent,
    aPosLayout, stripe_blue_top, stripe_pink_top, stripe_white, stripe_pink_bottom,
    stripe_blue_bottom, List.range, List.range.loop]

theorem xMax_slot (i : Fin 5) : xMax (stripeOfSlot i) = 1 := by
  fin_cases i <;> norm_num [xMax, quad, stripeOfSlot, specBand, fetchVertex, fetchComponent,
    aPosLayout, stripe_blue_top, stripe_pink_top, stripe_white, stripe_pink_bottom,
    stripe_blue_bottom, List.range, List.range.loop]

theorem quad_slot (i : Fin 5) : quad (stripeOfSlot i) =
    [⟨1, (specBand i).2, 0⟩, ⟨1, (specBand i).1, 0⟩, ⟨-1, (specBand i).1, 0⟩,
     ⟨-1, (specBand i).2, 0⟩] := by
  fin_cases i <;> norm_num [quad, stripeOfSlot, specBand, fetchVertex, fetchComponent,
    aPosLayout, stripe_blue_top, stripe_pink_top, stripe_white, stripe_pink_bottom,
    stripe_blue_bottom, List.range, List.range.loop]

/-- The two triangles of a band: orientation values as linear forms. -/
theorem orient_forms (lo hi : ℚ) (p : Vec3) :
    orient ⟨1, hi, 0⟩ ⟨1, lo, 0⟩ p = (hi - lo) * (p.x - 1) ∧
    orient ⟨1, lo, 0⟩ ⟨-1, hi, 0⟩ p = -2 * (p.y - lo) - (hi - lo) * (p.x - 1) ∧
    orient ⟨-1, hi, 0⟩ ⟨1, hi, 0⟩ p = 2 * (p.y - hi) ∧
    orient ⟨1, lo, 0⟩ ⟨-1, lo, 0⟩ p = -2 * (p.y - lo) ∧
    orient ⟨-1, lo, 0⟩ ⟨-1, hi, 0⟩ p = -((hi - lo) * (p.x + 1)) ∧
    orient ⟨-1, hi, 0⟩ ⟨1, lo, 0⟩ p = 2 * (p.y - lo) + (hi - lo) * (p.x - 1) := by
  simp only [orient]
  refine ⟨?_, ?_, ?_, ?_, ?_, ?_⟩ <;> ring

/-- A band of height `2/5` between `x = -1` and `x = 1`, cut along the diagonal
from bottom right to top left. -/
theorem band_split (lo hi : ℚ) (h : hi - lo = 2 / 5) :
    triangleArea (⟨1, hi, 0⟩, ⟨1, lo, 0⟩, ⟨-1, hi, 0⟩) = 2 / 5 ∧
    triangleArea (⟨1, lo, 0⟩, ⟨-1, lo, 0⟩, ⟨-1, hi, 0⟩) = 2 / 5 ∧
    (∀ p, ¬ (inInterior (⟨1, hi, 0⟩, ⟨1, lo, 0⟩, ⟨-1, hi, 0⟩) p ∧
             inInterior (⟨1, lo, 0⟩, ⟨-1, lo, 0⟩, ⟨-1, hi, 0⟩) p)) ∧
    (∀ p, (inTriangle (⟨1, hi, 0⟩, ⟨1, lo, 0⟩, ⟨-1, hi, 0⟩) p ∧
           inTriangle (⟨1, lo, 0⟩, ⟨-1, lo, 0⟩, ⟨-1, hi, 0⟩) p) ↔
          onSegment ⟨1, lo, 0⟩ ⟨-1, hi, 0⟩ p) ∧
    (∀ p, (inTriangle (⟨1, hi, 0⟩, ⟨1, lo, 0⟩, ⟨-1, hi, 0⟩) p ∨
           inTriangle (⟨1, lo, 0⟩, ⟨-1, lo, 0⟩, ⟨-1, hi, 0⟩) p) ↔
          (-1 ≤ p.x ∧ p.x ≤ 1 ∧ lo ≤ p.y ∧ p.y ≤ hi)) := by
  have hlt : lo < hi := by linarith
  refine ⟨?_, ?_, ?_, ?_, ?_⟩
  · have e : orient ⟨1, hi, 0⟩ ⟨1, lo, 0⟩ ⟨-1, hi, 0⟩ = -(4 / 5) := by
      rw [(orient_forms lo hi _).1, h]; norm_num
    simp only [triangleArea, e]; norm_num [abs_of_neg]
  · have e : orient ⟨1, lo, 0⟩ ⟨-1, lo, 0⟩ ⟨-1, hi, 0⟩ = -(4 / 5) := by
      rw [(orient_forms lo hi _).2.2.2.1]; linarith
    simp only [triangleArea, e]; norm_num [abs_of_neg]
  · intro p
    obtain ⟨a, b, c, d, e, f⟩ := orient_forms lo hi p
    simp only [inInterior, a, b, c, d, e, f, h]
    rintro ⟨h1 | h1, h2 | h2⟩ <;> obtain ⟨h11, h12, h13⟩ := h1 <;> obtain ⟨h21, h22, h23⟩ := h2 <;>
      linarith
  · intro p
    obtain ⟨a, b, c, d, e, f⟩ := orient_forms lo hi p
    have m1 : min (1 : ℚ) (-1) = -1 := by norm_num
    have m2 : max (1 : ℚ) (-1) = 1 := by norm_num
    simp only [inTriangle, onSegment, a, b, c, d, e, f, h, m1, m2, min_eq_left hlt.le,
      max_eq_right hlt.le]
    constructor
    · rintro ⟨h1 | h1, h2 | h2⟩ <;> obtain ⟨h11, h12, h13⟩ := h1 <;>
        obtain ⟨h21, h22, h23⟩ := h2 <;>
        refine ⟨?_, ?_, ?_, ?_, ?_⟩ <;> linarith
    · rintro ⟨h0, h1, h2, h3, h4⟩
      exact ⟨Or.inr ⟨by linarith, by linarith, by linarith⟩,
        Or.inr ⟨by linarith, by linarith, by linarith⟩⟩
  · intro p
    obtain ⟨a, b, c, d, e, f⟩ := orient_forms lo hi p
    simp only [inTriangle, a, b, c, d, e, f, h]
    constructor
    · rintro ((h1 | h1) | (h1 | h1)) <;> obtain ⟨h11, h12, h13⟩ := h1 <;>
        refine ⟨?_, ?_, ?_, ?_⟩ <;> linarith
    · rintro ⟨h1, h2, h3, h4⟩
      by_cases hd : -2 * (p.y - lo) - 2 / 5 * (p.x - 1) ≤ 0
      · exact Or.inl (Or.inr ⟨by linarith, hd, by linarith⟩)
      · exact Or.inr (Or.inr ⟨by linarith, by linarith, by linarith⟩)

theorem band_height (i : Fin 5) : (specBand i).2 - (specBand i).1 = 2 / 5 := by
  fin_cases i <;> norm_num [specBand]

theorem assemble_slot (i : Fin 5) :
    assemble aPosLayout (stripeOfSlot i) stripe_indices =
      [(⟨1, (specBand i).2, 0⟩, ⟨1, (specBand i).1, 0⟩, ⟨-1, (specBand i).2, 0⟩),
       (⟨1, (specBand i).1, 0⟩, ⟨-1, (specBand i).1, 0⟩, ⟨-1, (specBand i).2, 0⟩)] := by
  fin_cases i <;> norm_num [assemble, triangles, stripe_indices, stripeOfSlot, specBand,
    fetchVertex, fetchComponent, aPosLayout, stripe_blue_top, stripe_pink_top, stripe_white,
    stripe_pink_bottom, stripe_blue_bottom]

theorem attribSource_slot (i : Fin 5) :
    setupWorld.attribSource (locals.VAOs.getD i 0) 0 = some (aPosLayout, stripeOfSlot i) := by
  fin_cases i <;> rfl

theorem indexSource_slot (i : Fin 5) :
    setupWorld.indexSource (locals.VAOs.getD i 0) = some stripe_indices := by
  fin_cases i <;> rfl

theorem buffer_slot (i : Fin 5) :
    setupWorld.buffers.lookup (locals.VBOs.getD i 0) = some (.floats (stripeOfSlot i)) := by
  fin_cases i <;> rfl

/-- Claim C2. With the decimal literals read as rationals, the y ranges of the
five stripes are contiguous (each lower edge is the next upper edge), have
pairwise disjoint interiors, cover exactly the interval from -1.0 to 1.0, are
each 0.4 high, add up to a height of 2.0, and their edges are exactly
1.0, 0.6, 0.2, -0.2, -0.6 and -1.0. -/
theorem bands_partition :
    (∀ i : Fin 4, yMin (stripeOfSlot i.castSucc) = yMax (stripeOfSlot i.succ)) ∧
    (∀ i j : Fin 5, i ≠ j → ∀ y : ℚ,
      ¬ (yMin (stripeOfSlot i) < y ∧ y < yMax (stripeOfSlot i) ∧
         yMin (stripeOfSlot j) < y ∧ y < yMax (stripeOfSlot j))) ∧
    (∀ y : ℚ, (∃ i : Fin 5, yMin (stripeOfSlot i) ≤ y ∧ y ≤ yMax (stripeOfSlot i)) ↔
      (-1.0 ≤ y ∧ y ≤ 1.0)) ∧
    (∀ i : Fin 5, yMax (stripeOfSlot i) - yMin (stripeOfSlot i) = 0.4) ∧
    (∑ i : Fin 5, (yMax (stripeOfSlot i) - yMin (stripeOfSlot i)) = 2.0) ∧
    (∀ e : ℚ, (∃ i : Fin 5, e = yMin (stripeOfSlot i) ∨ e = yMax (stripeOfSlot i)) ↔
      e ∈ [1.0, 0.6, 0.2, -0.2, -0.6, -1.0]) := by
  simp only [yMin_slot, yMax_slot]
  refine ⟨?_, ?_, ?_, ?_, ?_, ?_⟩
  · intro i; fin_cases i <;> norm_num [specBand]
  · intro i j hij y
    fin_cases i <;> fin_cases j <;> first
      | exact absurd rfl hij
      | (norm_num [specBand]; intros; linarith)
  · intro y
    constructor
    · rintro ⟨i, h1, h2⟩
      fin_cases i <;> norm_num [specBand] at h1 h2 ⊢ <;> constructor <;> linarith
    · rintro ⟨h1, h2⟩
      norm_num at h1 h2
      by_cases a : (0.6 : ℚ) ≤ y
      · exact ⟨0, by norm_num [specBand] at a ⊢; exact ⟨a, h2⟩⟩
      by_cases b : (0.2 : ℚ) ≤ y
      · exact ⟨1, by norm_num [specBand] at a b ⊢; exact ⟨b, le_of_lt a⟩⟩
      by_cases c : (-0.2 : ℚ) ≤ y
      · exact ⟨2, by norm_num [specBand] at b c ⊢; exact ⟨c, le_of_lt b⟩⟩
      by_cases d : (-0.6 : ℚ) ≤ y
      · exact ⟨3, by norm_num [specBand] at c d ⊢; exact ⟨d, le_of_lt c⟩⟩
      · exact ⟨4, by norm_num [specBand] at d ⊢; exact ⟨h1, le_of_lt d⟩⟩
  · intro i; fin_cases i <;> norm_num [specBand]
  · norm_num [Fin.sum_univ_five, specBand]
  · intro e
    constructor
    · rintro ⟨i, h | h⟩ <;> subst h <;> fin_cases i <;> norm_num [specBand]
    · intro h
      simp only [List.mem_cons, List.mem_singleton, List.not_mem_nil, or_false] at h
      rcases h with h | h | h | h | h | h <;> subst h
      · exact ⟨0, Or.inr (by norm_num [specBand])⟩
      · exact ⟨0, Or.inl (by norm_num [specBand])⟩
      · exact ⟨1, Or.inl (by norm_num [specBand])⟩
      · exact ⟨2, Or.inl (by norm_num [specBand])⟩
      · exact ⟨3, Or.inl (by norm_num [specBand])⟩
      · exact ⟨4, Or.inl (by norm_num [specBand])⟩


/-- Claim C4. Each stripe array is the twelve floats of the four corners
top right, bottom right, bottom left, top left of its band, with the band of
slot `i` being the one the specification lists in place `i`. -/
theorem stripe_arrays (i : Fin 5) :
    (stripeOfSlot i).length = 12 ∧
    stripeOfSlot i =
      [1, (specBand i).2, 0, 1, (specBand i).1, 0, -1, (specBand i).1, 0, -1, (specBand i).2, 0] ∧
    quad (stripeOfSlot i) =
      [⟨1, (specBand i).2, 0⟩, ⟨1, (specBand i).1, 0⟩, ⟨-1, (specBand i).1, 0⟩,
       ⟨-1, (specBand i).2, 0⟩] ∧
    xMin (stripeOfSlot i) = -1.0 ∧ xMax (stripeOfSlot i) = 1.0 ∧
    (∀ v ∈ quad (stripeOfSlot i), v.z = 0.0) ∧
    setupWorld.buffers.lookup (locals.VBOs.getD i 0) = some (.floats (stripeOfSlot i)) ∧
    setupWorld.attribSource (locals.VAOs.getD i 0) 0 = some (aPosLayout, stripeOfSlot i) := by
  refine ⟨?_, ?_, quad_slot i, ?_, ?_, ?_, buffer_slot i, attribSource_slot i⟩
  · fin_cases i <;> rfl
  · fin_cases i <;> norm_num [stripeOfSlot, specBand, stripe_blue_top, stripe_pink_top,
      stripe_white, stripe_pink_bottom, stripe_blue_bottom]
  · rw [xMin_slot]; norm_num
  · rw [xMax_slot]; norm_num
  · rw [quad_slot]
    intro v hv
    simp only [List.mem_cons, List.mem_singleton, List.not_mem_nil, or_false] at hv
    rcases hv with h | h | h | h <;> subst h <;> norm_num

/-- Claim C3. The index list cuts each stripe quad into the triangles
(v0, v1, v3) and (v1, v2, v3); both have non-zero area, their areas add up to
the area of the quad, no point is interior to both, their common points are
exactly the diagonal from v1 to v3, and together they are exactly the
rectangle of the quad. -/
theorem two_triangles (i : Fin 5) :
    ∃ v0 v1 v2 v3 : Vec3,
      quad (stripeOfSlot i) = [v0, v1, v2, v3] ∧
      assemble aPosLayout (stripeOfSlot i) stripe_indices = [(v0, v1, v3), (v1, v2, v3)] ∧
      triangleArea (v0, v1, v3) ≠ 0 ∧
      triangleArea (v1, v2, v3) ≠ 0 ∧
      triangleArea (v0, v1, v3) + triangleArea (v1, v2, v3) =
        (xMax (stripeOfSlot i) - xMin (stripeOfSlot i)) *
          (yMax (stripeOfSlot i) - yMin (stripeOfSlot i)) ∧
      (∀ p, ¬ (inInterior (v0, v1, v3) p ∧ inInterior (v1, v2, v3) p)) ∧
      (∀ p, (inTriangle (v0, v1, v3) p ∧ inTriangle (v1, v2, v3) p) ↔ onSegment v1 v3 p) ∧
      (∀ p, (inTriangle (v0, v1, v3) p ∨ inTriangle (v1, v2, v3) p) ↔
        (xMin (stripeOfSlot i) ≤ p.x ∧ p.x ≤ xMax (stripeOfSlot i) ∧
         yMin (stripeOfSlot i) ≤ p.y ∧ p.y ≤ yMax (stripeOfSlot i))) := by
  obtain ⟨a1, a2, hd, hs, hc⟩ := band_split (specBand i).1 (specBand i).2 (band_height i)
  refine ⟨_, _, _, _, quad_slot i, assemble_slot i, ?_, ?_, ?_, hd, hs, ?_⟩
  · rw [a1]; norm_num
  · rw [a2]; norm_num
  · rw [a1, a2, xMin_slot, xMax_slot, yMin_slot, yMax_slot, band_height]; norm_num
  · rw [xMin_slot, xMax_slot, yMin_slot, yMax_slot]; exact hc


theorem attribSource_prepared {w : World} (h : Prepared w) (a i : Nat) :
    w.attribSource a i = setupWorld.attribSource a i := by
  unfold World.attribSource; rw [h.arrays, h.buffers]

theorem indexSource_prepared {w : World} (h : Prepared w) (a : Nat) :
    w.indexSource a = setupWorld.indexSource a := by
  unfold World.indexSource; rw [h.arrays, h.buffers]

theorem vertexMain_prepared {w : World} (h : Prepared w) (p : Nat) :
    w.vertexMain p = setupWorld.vertexMain p := by
  unfold World.vertexMain; rw [h.programs, h.shaders]

theorem fragmentMain_prepared {w : World} (h : Prepared w) (p : Nat) :
    w.fragmentMain p = setupWorld.fragmentMain p := by
  unfold World.fragmentMain; rw [h.programs, h.shaders]

theorem drawnTriangles_prepared {w : World} (h : Prepared w) (op : RenderOp) :
    w.drawnTriangles op = setupWorld.drawnTriangles op := by
  cases op with
  | clear => rfl
  | present => rfl
  | draw p a m c t o =>
    cases m; cases t
    · rfl
    · simp only [World.drawnTriangles, vertexMain_prepared h, attribSource_prepared h,
        indexSource_prepared h]

theorem drawnColor_prepared {w : World} (h : Prepared w) (pos : Vec4) (op : RenderOp) :
    w.drawnColor pos op = setupWorld.drawnColor pos op := by
  cases op with
  | clear => rfl
  | present => rfl
  | draw p a m c t o => simp only [World.drawnColor, fragmentMain_prepared h]

theorem frame_slots :
    frame = [.clear .GL_COLOR_BUFFER_BIT ⟨0.0, 0.0, 0.0, 1.0⟩, slotDraw 0, slotDraw 4, slotDraw 1,
      slotDraw 3, slotDraw 2, .present] := rfl

theorem vertexMain_slot (i : Fin 5) :
    setupWorld.vertexMain (slotProgram i) = some fun aPos => ⟨aPos.x, aPos.y, aPos.z, 1.0⟩ := by
  fin_cases i <;> rfl

theorem drawnTriangles_slot (i : Fin 5) :
    setupWorld.drawnTriangles (slotDraw i) =
      assemble aPosLayout (stripeOfSlot i) stripe_indices := by
  simp only [slotDraw, World.drawnTriangles, vertexMain_slot, attribSource_slot,
    indexSource_slot]
  rw [assemble_slot]
  fin_cases i <;> norm_num [triangles, stripe_indices, stripeOfSlot, specBand, ndc,
    fetchVertex, fetchComponent, aPosLayout, stripe_blue_top, stripe_pink_top, stripe_white,
    stripe_pink_bottom, stripe_blue_bottom]

theorem drawnColor_slot (i : Fin 5) (pos : Vec4) :
    setupWorld.drawnColor pos (slotDraw i) = some (specColour i) := by
  fin_cases i
  · rfl
  · rfl
  · show some (⟨1.0, 1.0, 1.0, 1.0⟩ : Vec4) = some ⟨1, 1, 1, 1⟩
    norm_num
  · rfl
  · rfl

theorem countP_resizeCalls (rs : List (Int × Int)) :
    (resizeCalls rs).countP Call.isDraw = 0 := by
  induction rs with
  | nil => rfl
  | cons r rs ih =>
    have e : resizeCalls (r :: rs) = .glViewport 0 0 r.1 r.2 :: resizeCalls rs := rfl
    rw [e, List.countP_cons, ih]
    rfl

theorem renderLoop_none (ticks : Nat → TickInput) (fuel : Nat) :
    ∀ k, (∀ j, j < fuel → (frameStart ticks (k + j)).shouldClose = false) →
      renderLoop locals ticks fuel k (frameStart ticks k) = none := by
  induction fuel with
  | zero => intro k _; rfl
  | succ fuel ih =>
    intro k h
    have h0 : (frameStart ticks k).shouldClose = false := h 0 (Nat.succ_pos fuel)
    rw [renderLoop_succ, if_neg (by simp [h0])]
    refine ih (k + 1) fun j hj => ?_
    have e3 : k + 1 + j = k + (j + 1) := by omega
    rw [e3]
    exact h (j + 1) (Nat.succ_lt_succ hj)

theorem main_none (ticks : Nat → TickInput) (fuel : Nat)
    (h : ∀ j, j + 1 < fuel → closesAt ticks j = false) :
    main (Env.allSucceed ticks) fuel = none := by
  rw [main_allSucceed]
  have e := renderLoop_none ticks fuel 0 fun j hj => by
    rw [Nat.zero_add]
    exact shouldClose_false ticks j fun i hi => h i (by omega)
  show Option.map _ (renderLoop locals ticks fuel 0 (frameStart ticks 0)) = _
  rw [e]
  rfl

theorem main_init_fails (env : Env) (fuel : Nat) (h : env.glfwInitResult = false) :
    main env fuel = some (1, printf "Failed to initialise GLFW\n" (glfwInit env World.start).2) := by
  obtain ⟨a, b, c, d⟩ := env
  dsimp only at h
  subst h
  rfl

theorem main_window_fails (env : Env) (fuel : Nat) (h1 : env.glfwInitResult = true)
    (h2 : env.createWindowResult = false) :
    ∃ w, main env fuel = some (1, w) ∧ w.stdout = ["Failed to create GLFW window\n"] ∧
      w.trace = [.glfwInit,
        .glfwWindowHint .GLFW_CONTEXT_VERSION_MAJOR (.number 3),
        .glfwWindowHint .GLFW_CONTEXT_VERSION_MINOR (.number 3),
        .glfwWindowHint .GLFW_OPENGL_PROFILE .GLFW_OPENGL_CORE_PROFILE,
        .glfwCreateWindow 640 400 "hello_trans",
        .printf "Failed to create GLFW window\n", .glfwTerminate] ∧
      w.glfwUp = false ∧ w.window = none := by
  obtain ⟨a, b, c, d⟩ := env
  dsimp only at h1 h2
  subst h1 h2
  exact ⟨_, rfl, rfl, rfl, rfl, rfl⟩

theorem main_glew_fails (env : Env) (fuel : Nat) (h1 : env.glfwInitResult = true)
    (h2 : env.createWindowResult = true) (h3 : env.glewInitResult ≠ 0) :
    ∃ w, main env fuel = some (1, w) ∧ w.stdout = ["Failed to initialise GLEW\n"] ∧
      w.trace = [.glfwInit,
        .glfwWindowHint .GLFW_CONTEXT_VERSION_MAJOR (.number 3),
        .glfwWindowHint .GLFW_CONTEXT_VERSION_MINOR (.number 3),
        .glfwWindowHint .GLFW_OPENGL_PROFILE .GLFW_OPENGL_CORE_PROFILE,
        .glfwCreateWindow 640 400 "hello_trans",
        .glfwMakeContextCurrent 1, .glfwSwapInterval 1, .glewInit,
        .printf "Failed to initialise GLEW\n"] ∧
      w.glfwUp = true ∧ w.window = some 1 := by
  obtain ⟨a, b, c, d⟩ := env
  dsimp only at h1 h2 h3
  subst h1 h2
  cases c with
  | zero => exact absurd rfl h3
  | succ c => exact ⟨_, rfl, rfl, rfl, rfl, rfl⟩

theorem env_allSucceed (env : Env) (h1 : env.glfwInitResult = true)
    (h2 : env.createWindowResult = true) (h3 : env.glewInitResult = 0) :
    env = Env.allSucceed env.ticks := by
  obtain ⟨a, b, c, d⟩ := env
  dsimp only at h1 h2 h3
  subst h1 h2 h3
  rfl

theorem stdout_final (ticks : Nat → TickInput) (n : Nat) :
    (glfwTerminate (guarded (frameStart ticks n))).stdout = [] :=
  (prepared_frameStart ticks n).stdout

/-- Claim C5. The exit status and console output of `main` on each of its
four paths: status 1 and one diagnostic line when `glfwInit` fails (and then
no other library call), when `glfwCreateWindow` fails, and when `glewInit`
fails; status 0 and no output when all three succeed, which `main` does return
once the outside world asks the window to close. These four cases are all
cases, so there is no other exit path. -/
theorem exit_paths (env : Env) (fuel : Nat) :
    (env.glfwInitResult = false →
      ∃ w, main env fuel = some (1, w) ∧ w.stdout = ["Failed to initialise GLFW\n"] ∧
        lineCount w.stdout = 1 ∧
        w.trace = [.glfwInit, .printf "Failed to initialise GLFW\n"]) ∧
    (env.glfwInitResult = true → env.createWindowResult = false →
      ∃ w, main env fuel = some (1, w) ∧ w.stdout = ["Failed to create GLFW window\n"] ∧
        lineCount w.stdout = 1) ∧
    (env.glfwInitResult = true → env.createWindowResult = true → env.glewInitResult ≠ 0 →
      ∃ w, main env fuel = some (1, w) ∧ w.stdout = ["Failed to initialise GLEW\n"] ∧
        lineCount w.stdout = 1) ∧
    (env.glfwInitResult = true → env.createWindowResult = true → env.glewInitResult = 0 →
      (∀ r, main env fuel = some r → r.1 = 0 ∧ r.2.stdout = []) ∧
      (∀ n, (∀ j, j < n → closesAt env.ticks j = false) → closesAt env.ticks n = true →
        n + 2 ≤ fuel → ∃ w, main env fuel = some (0, w) ∧ w.stdout = [])) ∧
    (∀ r, main env fuel = some r →
      (r.1 = 1 ∧ lineCount r.2.stdout = 1 ∧
        ¬ (env.glfwInitResult = true ∧ env.createWindowResult = true ∧ env.glewInitResult = 0)) ∨
      (r.1 = 0 ∧ r.2.stdout = [] ∧
        env.glfwInitResult = true ∧ env.createWindowResult = true ∧ env.glewInitResult = 0)) := by
  refine ⟨fun h => ?_, fun h1 h2 => ?_, fun h1 h2 h3 => ?_, fun h1 h2 h3 => ?_, fun r hr => ?_⟩
  · exact ⟨_, main_init_fails env fuel h, rfl, rfl, rfl⟩
  · obtain ⟨w, hw, ho, _⟩ := main_window_fails env fuel h1 h2
    exact ⟨w, hw, ho, by rw [ho]; decide⟩
  · obtain ⟨w, hw, ho, _⟩ := main_glew_fails env fuel h1 h2 h3
    exact ⟨w, hw, ho, by rw [ho]; decide⟩
  · rw [env_allSucceed env h1 h2 h3]
    refine ⟨fun r hr => ?_, fun n hn1 hn2 hf => ?_⟩
    · obtain ⟨n, hn⟩ := main_result _ fuel r hr
      rw [hn]
      exact ⟨rfl, stdout_final _ n⟩
    · obtain ⟨extra, he⟩ := Nat.exists_eq_add_of_le hf
      refine ⟨_, ?_, stdout_final env.ticks (n + 1)⟩
      have e : fuel = extra + n + 2 := by omega
      rw [e]
      exact main_closes _ extra n hn1 hn2
  · cases h1 : env.glfwInitResult with
    | false =>
      rw [main_init_fails env fuel h1] at hr
      rw [← Option.some.inj hr]
      exact Or.inl ⟨rfl, rfl, fun h => Bool.noConfusion h.1⟩
    | true =>
      cases h2 : env.createWindowResult with
      | false =>
        obtain ⟨w, hw, ho, _⟩ := main_window_fails env fuel h1 h2
        rw [hw] at hr
        rw [← Option.some.inj hr]
        exact Or.inl ⟨rfl, by rw [ho]; decide, fun h => Bool.noConfusion h.2.1⟩
      | true =>
        by_cases h3 : env.glewInitResult = 0
        · rw [env_allSucceed env h1 h2 h3] at hr
          obtain ⟨n, hn⟩ := main_result _ fuel r hr
          rw [hn]
          exact Or.inr ⟨rfl, stdout_final _ n, rfl, rfl, h3⟩
        · obtain ⟨w, hw, ho, _⟩ := main_glew_fails env fuel h1 h2 h3
          rw [hw] at hr
          rw [← Option.some.inj hr]
          exact Or.inl ⟨rfl, by rw [ho]; decide, fun h => h3 h.2.2⟩

/-- Claim C5, witness: the four paths of `main` at concrete outside worlds. -/
theorem exit_paths_witness :
    (∃ w, main ⟨false, true, 0, quiet⟩ 0 = some (1, w) ∧
      w.stdout = ["Failed to initialise GLFW\n"] ∧ lineCount w.stdout = 1 ∧
      w.trace = [.glfwInit, .printf "Failed to initialise GLFW\n"]) ∧
    (∃ w, main ⟨true, false, 0, quiet⟩ 0 = some (1, w) ∧
      w.stdout = ["Failed to create GLFW window\n"] ∧ lineCount w.stdout = 1) ∧
    (∃ w, main ⟨true, true, 1, quiet⟩ 0 = some (1, w) ∧
      w.stdout = ["Failed to initialise GLEW\n"] ∧ lineCount w.stdout = 1) ∧
    (∃ w, main ⟨true, true, 0, escapeAt 1⟩ 3 = some (0, w) ∧ w.stdout = []) :=
  ⟨(exit_paths ⟨false, true, 0, quiet⟩ 0).1 rfl,
   (exit_paths ⟨true, false, 0, quiet⟩ 0).2.1 rfl rfl,
   (exit_paths ⟨true, true, 1, quiet⟩ 0).2.2.1 rfl rfl (by decide),
   ((exit_paths ⟨true, true, 0, escapeAt 1⟩ 3).2.2.2.1 rfl rfl rfl).2 1
     (by decide) (by decide) (by decide)⟩

/-- Claim C6 fails on the code at the `glewInit` failure path: with `glfwInit`
and `glfwCreateWindow` successful and `glewInit` returning 1, `main` prints its
message and returns 1 without calling `glfwTerminate`, leaving GLFW initialised
and the window in place, whereas the window-creation failure path does call
`glfwTerminate` before it returns. -/
theorem glew_failure_skips_terminate (ticks : Nat → TickInput) (fuel : Nat) :
    (∃ w, main ⟨true, true, 1, ticks⟩ fuel = some (1, w) ∧
      w.stdout = ["Failed to initialise GLEW\n"] ∧
      Call.glfwTerminate ∉ w.trace ∧ w.glfwUp = true ∧ w.window = some 1) ∧
    (∃ w, main ⟨true, false, 0, ticks⟩ fuel = some (1, w) ∧
      w.stdout = ["Failed to create GLFW window\n"] ∧
      w.trace.getLast? = some .glfwTerminate ∧ w.glfwUp = false ∧ w.window = none) := by
  obtain ⟨w, hw, ho, ht, hu, hwin⟩ :=
    main_glew_fails ⟨true, true, 1, ticks⟩ fuel rfl rfl Nat.one_ne_zero
  obtain ⟨v, hv, ho2, ht2, hu2, hwin2⟩ := main_window_fails ⟨true, false, 0, ticks⟩ fuel rfl rfl
  exact ⟨⟨w, hw, ho, by rw [ht]; decide, hu, hwin⟩, ⟨v, hv, ho2, by rw [ht2]; rfl, hu2, hwin2⟩⟩

/-- Claim C1. In every frame, whatever the outside world does, the draws are
exactly: blue program with `VAOs[0]`, blue program with `VAOs[4]`, pink program
with `VAOs[1]`, pink program with `VAOs[3]`, white program with `VAOs[2]`, each
of 6 indices, 30 indices in all; and at that frame `VAOs[0]`, `VAOs[4]`,
`VAOs[1]`, `VAOs[3]`, `VAOs[2]` read the vertex data of `stripe_blue_top`,
`stripe_blue_bottom`, `stripe_pink_top`, `stripe_pink_bottom`, `stripe_white`
and the shared index list. The frames are those of `main`: whenever `main`
returns after a successful start-up, its final world is the world at the guard
of some frame `n`, followed by that guard and `glfwTerminate`. -/
theorem draw_sequence (ticks : Nat → TickInput) (k : Nat) :
    (frameOps ticks k).filter RenderOp.isDraw =
      [.draw locals.shader_program_blue (locals.VAOs.getD 0 0) .GL_TRIANGLES 6 .GL_UNSIGNED_INT 0,
       .draw locals.shader_program_blue (locals.VAOs.getD 4 0) .GL_TRIANGLES 6 .GL_UNSIGNED_INT 0,
       .draw locals.shader_program_pink (locals.VAOs.getD 1 0) .GL_TRIANGLES 6 .GL_UNSIGNED_INT 0,
       .draw locals.shader_program_pink (locals.VAOs.getD 3 0) .GL_TRIANGLES 6 .GL_UNSIGNED_INT 0,
       .draw locals.shader_program_white (locals.VAOs.getD 2 0) .GL_TRIANGLES 6 .GL_UNSIGNED_INT 0] ∧
    (frameStart ticks k).attribSource (locals.VAOs.getD 0 0) 0 = some (aPosLayout, stripe_blue_top) ∧
    (frameStart ticks k).attribSource (locals.VAOs.getD 4 0) 0 =
      some (aPosLayout, stripe_blue_bottom) ∧
    (frameStart ticks k).attribSource (locals.VAOs.getD 1 0) 0 = some (aPosLayout, stripe_pink_top) ∧
    (frameStart ticks k).attribSource (locals.VAOs.getD 3 0) 0 =
      some (aPosLayout, stripe_pink_bottom) ∧
    (frameStart ticks k).attribSource (locals.VAOs.getD 2 0) 0 = some (aPosLayout, stripe_white) ∧
    (∀ i : Fin 5, (frameStart ticks k).indexSource (locals.VAOs.getD i 0) = some stripe_indices) ∧
    ((frameOps ticks k).map RenderOp.indexCount).sum = 30 ∧
    (frameCalls ticks k).countP Call.isDraw = 5 ∧
    locals.VAOs.length = 5 ∧ locals.VAOs.Nodup ∧
    [locals.shader_program_blue, locals.shader_program_pink, locals.shader_program_white].Nodup ∧
    (∀ fuel, main (Env.allSucceed ticks) fuel = none ∨
      ∃ n, main (Env.allSucceed ticks) fuel =
        some (0, glfwTerminate (glfwWindowShouldClose locals.window (frameStart ticks n)).2)) := by
  have hp := prepared_frameStart ticks k
  rw [frameOps_eq, frameCalls_eq]
  refine ⟨rfl, ?_, ?_, ?_, ?_, ?_, ?_, rfl, ?_, rfl, ?_, ?_, fun fuel => ?_⟩
  · exact (attribSource_prepared hp _ _).trans (attribSource_slot 0)
  · exact (attribSource_prepared hp _ _).trans (attribSource_slot 4)
  · exact (attribSource_prepared hp _ _).trans (attribSource_slot 1)
  · exact (attribSource_prepared hp _ _).trans (attribSource_slot 3)
  · exact (attribSource_prepared hp _ _).trans (attribSource_slot 2)
  · intro i
    exact (indexSource_prepared hp _).trans (indexSource_slot i)
  · rw [List.countP_append, List.countP_append, List.countP_append, countP_resizeCalls]
    cases h : (ticks k).escape <;> simp only [inputCalls, h] <;> rfl
  · rw [locals_eq]; decide
  · rw [locals_eq]; decide
  · cases h : main (Env.allSucceed ticks) fuel with
    | none => exact Or.inl rfl
    | some r =>
      obtain ⟨n, hn⟩ := main_result ticks fuel r h
      exact Or.inr ⟨n, by rw [hn]; rfl⟩

/-- Claim C7 as stated fails: a frame makes five draw calls, not six. -/
theorem frame_draw_calls_not_six : ¬ ((frameCalls quiet 0).countP Call.isDraw = 6) := by
  rw [frameCalls_eq]
  decide

/-- Claim C7, amended. Every frame makes these calls in this order: the loop
guard, `processInput` (the key query and, when escape is pressed, the close
request), `glClearColor(0, 0, 0, 1)` and `glClear` of the colour buffer, five
draw calls (two with the blue program, two with the pink program, one with the
white program), `glfwSwapBuffers`, `glfwPollEvents` (within which the resize
callback runs); the colour buffer is cleared to opaque black. -/
theorem frame_calls (ticks : Nat → TickInput) (k : Nat) :
    frameCalls ticks k =
      [.glfwWindowShouldClose locals.window, .glfwGetKey locals.window .GLFW_KEY_ESCAPE] ++
      (if (ticks k).escape = .GLFW_PRESS then [.glfwSetWindowShouldClose locals.window true]
       else []) ++
      [.glClearColor 0.0 0.0 0.0 1.0, .glClear .GL_COLOR_BUFFER_BIT,
       .glUseProgram locals.shader_program_blue,
       .glBindVertexArray (locals.VAOs.getD 0 0),
       .glDrawElements .GL_TRIANGLES 6 .GL_UNSIGNED_INT 0,
       .glBindVertexArray (locals.VAOs.getD 4 0),
       .glDrawElements .GL_TRIANGLES 6 .GL_UNSIGNED_INT 0,
       .glUseProgram locals.shader_program_pink,
       .glBindVertexArray (locals.VAOs.getD 1 0),
       .glDrawElements .GL_TRIANGLES 6 .GL_UNSIGNED_INT 0,
       .glBindVertexArray (locals.VAOs.getD 3 0),
       .glDrawElements .GL_TRIANGLES 6 .GL_UNSIGNED_INT 0,
       .glUseProgram locals.shader_program_white,
       .glBindVertexArray (locals.VAOs.getD 2 0),
       .glDrawElements .GL_TRIANGLES 6 .GL_UNSIGNED_INT 0,
       .glfwSwapBuffers locals.window, .glfwPollEvents] ++
      (ticks k).events.resizes.map (fun r => .glViewport 0 0 r.1 r.2) ∧
    (frameCalls ticks k).countP Call.isDraw = 5 ∧
    frameOps ticks k =
      [.clear .GL_COLOR_BUFFER_BIT ⟨0, 0, 0, 1⟩,
       .draw locals.shader_program_blue (locals.VAOs.getD 0 0) .GL_TRIANGLES 6 .GL_UNSIGNED_INT 0,
       .draw locals.shader_program_blue (locals.VAOs.getD 4 0) .GL_TRIANGLES 6 .GL_UNSIGNED_INT 0,
       .draw locals.shader_program_pink (locals.VAOs.getD 1 0) .GL_TRIANGLES 6 .GL_UNSIGNED_INT 0,
       .draw locals.shader_program_pink (locals.VAOs.getD 3 0) .GL_TRIANGLES 6 .GL_UNSIGNED_INT 0,
       .draw locals.shader_program_white (locals.VAOs.getD 2 0) .GL_TRIANGLES 6 .GL_UNSIGNED_INT 0,
       .present] := by
  rw [frameOps_eq, frameCalls_eq]
  refine ⟨?_, ?_, ?_⟩
  · cases h : (ticks k).escape <;> simp only [inputCalls, h] <;> rfl
  · rw [List.countP_append, List.countP_append, List.countP_append, countP_resizeCalls]
    cases h : (ticks k).escape <;> simp only [inputCalls, h] <;> rfl
  · have e : (⟨0.0, 0.0, 0.0, 1.0⟩ : Vec4) = ⟨0, 0, 0, 1⟩ := by norm_num
    unfold frame
    rw [e]

/-- Claim C10. The resize callback sets the viewport to `(0, 0, width, height)`
for every width and height, positive ones included, and changes nothing else
in the world (it is recorded in the trace as one `glViewport` call); it is the
callback registered by the last call before the render loop and stays
registered in every frame; and when the poll of frame `k` delivers resize
events, the last of which is `(width, height)`, the viewport is
`(0, 0, width, height)` when frame `k + 1` starts, hence before frame `k + 1`
is presented. -/
theorem resize_callback :
    (∀ (window : Nat) (width height : Int) (w : World),
      framebuffer_size_callback window width height w =
        { w with viewport := (0, 0, width, height)
                 trace := w.trace ++ [.glViewport 0 0 width height] }) ∧
    Callback.invoke .framebuffer_size_callback = framebuffer_size_callback ∧
    setupWorld.trace.getLast? =
      some (.glfwSetFramebufferSizeCallback locals.window .framebuffer_size_callback) ∧
    (∀ (ticks : Nat → TickInput) (k : Nat),
      (frameStart ticks k).framebufferSizeCallback = some .framebuffer_size_callback) ∧
    (∀ (ticks : Nat → TickInput) (k : Nat) (rs : List (Int × Int)) (width height : Int),
      (ticks k).events.resizes = rs ++ [(width, height)] →
      (frameStart ticks (k + 1)).viewport = (0, 0, width, height) ∧
      (frameCalls ticks k).getLast? = some (.glViewport 0 0 width height)) ∧
    (∀ (ticks : Nat → TickInput) (k : Nat), (ticks k).events.resizes = [] →
      (frameStart ticks (k + 1)).viewport = (frameStart ticks k).viewport) := by
  refine ⟨fun _ _ _ _ => rfl, rfl, by decide, fun ticks k => (prepared_frameStart ticks k).callback,
    fun ticks k rs width height h => ?_, fun ticks k h => ?_⟩
  · constructor
    · rw [frameStart_succ, h]
      simp [viewportAfter]
    · rw [frameCalls_eq, h]
      simp only [resizeCalls, List.map_append, List.map_cons, List.map_nil, ← List.append_assoc]
      exact List.getLast?_concat _
  · rw [frameStart_succ, h]
    rfl

/-- Claim C10, witness: a poll that delivers two resize events, and one that
delivers none. -/
theorem resize_callback_witness :
    (frameStart (fun _ => ⟨.GLFW_RELEASE, ⟨false, [(1, 1), (800, 600)]⟩⟩) 1).viewport =
      (0, 0, 800, 600) ∧
    (frameStart quiet 1).viewport = (0, 0, 640, 400) :=
  ⟨(resize_callback.2.2.2.2.1 (fun _ => ⟨.GLFW_RELEASE, ⟨false, [(1, 1), (800, 600)]⟩⟩) 0
      [(1, 1)] 800 600 rfl).1,
   resize_callback.2.2.2.2.2 quiet 0 rfl⟩

theorem processInput_pressed (t : TickInput) (window : Nat) (w : World)
    (h : t.escape = .GLFW_PRESS) : (processInput t window w).shouldClose = true := by
  obtain ⟨e, ev⟩ := t
  dsimp only at h
  subst h
  rfl

theorem processInput_released (t : TickInput) (window : Nat) (w : World)
    (h : t.escape = .GLFW_RELEASE) : (processInput t window w).shouldClose = w.shouldClose := by
  obtain ⟨e, ev⟩ := t
  dsimp only at h
  subst h
  rfl

/-- Claim C8. The loop runs its body exactly when the close flag is clear at
the guard and otherwise ends; `processInput` sets the flag when escape reads
as pressed and leaves it alone when it does not; the flag after a frame is the
flag before it, or escape pressed, or a close request polled. If escape is
first pressed in frame `n` (and no close request came earlier), frame `n` still
runs in full, the flag is set at the next guard, and `main`, given fuel for
`n + 2` guard checks, returns 0 after exactly `n + 1` frames with
`glfwTerminate` as its last call. As long as nothing asks the window to close
the loop keeps running. -/
theorem loop_exit :
    (∀ (ticks : Nat → TickInput) (fuel k : Nat) (w : World),
      renderLoop locals ticks (fuel + 1) k w =
        if w.shouldClose = true then some (glfwWindowShouldClose locals.window w).2
        else renderLoop locals ticks fuel (k + 1)
          (loopBody locals (ticks k) (glfwWindowShouldClose locals.window w).2)) ∧
    (∀ (window : Nat) (w : World),
      (glfwWindowShouldClose window w).1 = w.shouldClose ∧
      (glfwWindowShouldClose window w).2.shouldClose = w.shouldClose) ∧
    (∀ (t : TickInput) (window : Nat) (w : World), t.escape = .GLFW_PRESS →
      (processInput t window w).shouldClose = true) ∧
    (∀ (t : TickInput) (window : Nat) (w : World), t.escape = .GLFW_RELEASE →
      (processInput t window w).shouldClose = w.shouldClose) ∧
    (∀ (ticks : Nat → TickInput) (k : Nat),
      (frameStart ticks (k + 1)).shouldClose =
        ((frameStart ticks k).shouldClose || decide ((ticks k).escape = .GLFW_PRESS) ||
          (ticks k).events.closeRequested)) ∧
    (∀ (ticks : Nat → TickInput) (n : Nat),
      (∀ j, j < n → closesAt ticks j = false) → (ticks n).escape = .GLFW_PRESS →
      (frameStart ticks n).shouldClose = false ∧
      frameCalls ticks n =
        [.glfwWindowShouldClose locals.window, .glfwGetKey locals.window .GLFW_KEY_ESCAPE,
         .glfwSetWindowShouldClose locals.window true] ++ renderCalls ++
          resizeCalls (ticks n).events.resizes ∧
      frameOps ticks n = frame ∧
      (frameStart ticks (n + 1)).shouldClose = true ∧
      ∀ fuel, n + 2 ≤ fuel →
        ∃ w, main (Env.allSucceed ticks) fuel = some (0, w) ∧
          w = glfwTerminate (glfwWindowShouldClose locals.window (frameStart ticks (n + 1))).2 ∧
          w.rendered = (List.replicate (n + 1) frame).flatten ∧
          w.trace.getLast? = some .glfwTerminate ∧
          w.glfwUp = false) ∧
    (∀ (ticks : Nat → TickInput) (fuel : Nat),
      (∀ j, j + 1 < fuel → closesAt ticks j = false) →
      main (Env.allSucceed ticks) fuel = none) := by
  refine ⟨fun ticks fuel k w => renderLoop_succ ticks fuel k w, fun _ _ => ⟨rfl, rfl⟩,
    processInput_pressed, processInput_released, fun ticks k => ?_, fun ticks n h1 h2 => ?_,
    main_none⟩
  · rw [shouldClose_succ, closesAt, Bool.or_assoc]
  · have hc : closesAt ticks n = true := by simp [closesAt, h2]
    refine ⟨shouldClose_false ticks n h1, ?_, frameOps_eq ticks n,
      shouldClose_true ticks n (n + 1) (Nat.lt_succ_self n) hc, fun fuel hf => ?_⟩
    · rw [frameCalls_eq]
      simp only [inputCalls, h2]
      rfl
    · obtain ⟨extra, he⟩ := Nat.exists_eq_add_of_le hf
      have e : fuel = extra + n + 2 := by omega
      rw [e]
      refine ⟨_, main_closes ticks extra n h1 hc, rfl, ?_, ?_, rfl⟩
      · exact rendered_frameStart ticks (n + 1)
      · exact List.getLast?_concat _

/-- Claim C8, witness: escape pressed in frame 1, fuel for three guard checks. -/
theorem loop_exit_witness :
    ∃ w, main (Env.allSucceed (escapeAt 1)) 3 = some (0, w) ∧
      w = glfwTerminate (glfwWindowShouldClose locals.window (frameStart (escapeAt 1) 2)).2 ∧
      w.rendered = (List.replicate 2 frame).flatten ∧
      w.trace.getLast? = some .glfwTerminate ∧
      w.glfwUp = false :=
  (loop_exit.2.2.2.2.2.1 (escapeAt 1) 1 (by decide) rfl).2.2.2.2 3 (by decide)

theorem band_of_drawn (j : Fin 5) (t : Vec3 × Vec3 × Vec3) (p : Vec3)
    (ht : t ∈ setupWorld.drawnTriangles (slotDraw j)) (hin : inTriangle t p) :
    -1 ≤ p.x ∧ p.x ≤ 1 ∧ (specBand j).1 ≤ p.y ∧ p.y ≤ (specBand j).2 := by
  obtain ⟨_, _, _, _, hc⟩ := band_split (specBand j).1 (specBand j).2 (band_height j)
  rw [drawnTriangles_slot, assemble_slot] at ht
  simp only [List.mem_cons, List.mem_singleton, List.not_mem_nil, or_false] at ht
  rcases ht with h | h
  · subst h; exact (hc p).mp (Or.inl hin)
  · subst h; exact (hc p).mp (Or.inr hin)

theorem drawn_of_band (i : Fin 5) (p : Vec3) (h1 : -1 ≤ p.x) (h2 : p.x ≤ 1)
    (h3 : (specBand i).1 ≤ p.y) (h4 : p.y ≤ (specBand i).2) :
    ∃ t ∈ setupWorld.drawnTriangles (slotDraw i), inTriangle t p := by
  obtain ⟨_, _, _, _, hc⟩ := band_split (specBand i).1 (specBand i).2 (band_height i)
  rw [drawnTriangles_slot, assemble_slot]
  rcases (hc p).mpr ⟨h1, h2, h3, h4⟩ with h | h
  · exact ⟨_, List.mem_cons_self _ _, h⟩
  · exact ⟨_, List.mem_cons_of_mem _ (List.mem_cons_self _ _), h⟩

theorem bands_apart (i j : Fin 5) (y : ℚ) (h1 : (specBand i).1 < y) (h2 : y < (specBand i).2)
    (h3 : (specBand j).1 ≤ y) (h4 : y ≤ (specBand j).2) : j = i := by
  fin_cases i <;> fin_cases j <;> first
    | rfl
    | (exfalso; norm_num [specBand] at h1 h2 h3 h4; linarith)

theorem mem_frame (op : RenderOp) (h : op ∈ frame) :
    op = .clear .GL_COLOR_BUFFER_BIT ⟨0.0, 0.0, 0.0, 1.0⟩ ∨ op = .present ∨
      ∃ j : Fin 5, op = slotDraw j := by
  rw [frame_slots] at h
  simp only [List.mem_cons, List.mem_singleton, List.not_mem_nil, or_false] at h
  rcases h with h | h | h | h | h | h | h
  · exact Or.inl h
  · exact Or.inr (Or.inr ⟨0, h⟩)
  · exact Or.inr (Or.inr ⟨4, h⟩)
  · exact Or.inr (Or.inr ⟨1, h⟩)
  · exact Or.inr (Or.inr ⟨3, h⟩)
  · exact Or.inr (Or.inr ⟨2, h⟩)
  · exact Or.inr (Or.inl h)

theorem colour_in_band (ticks : Nat → TickInput) (k : Nat) (i : Fin 5) (op : RenderOp)
    (hop : op ∈ frameOps ticks k) (t : Vec3 × Vec3 × Vec3)
    (ht : t ∈ (frameStart ticks k).drawnTriangles op) (p : Vec3) (hin : inTriangle t p)
    (h1 : yMin (stripeOfSlot i) < p.y) (h2 : p.y < yMax (stripeOfSlot i)) (pos : Vec4) :
    (frameStart ticks k).drawnColor pos op = some (specColour i) := by
  have hp := prepared_frameStart ticks k
  rw [yMin_slot] at h1
  rw [yMax_slot] at h2
  rw [drawnTriangles_prepared hp] at ht
  rw [drawnColor_prepared hp]
  rw [frameOps_eq] at hop
  rcases mem_frame op hop with h | h | ⟨j, h⟩
  · subst h; simp [World.drawnTriangles] at ht
  · subst h; simp [World.drawnTriangles] at ht
  · subst h
    obtain ⟨_, _, h3, h4⟩ := band_of_drawn j t p ht hin
    rw [bands_apart i j p.y h1 h2 h3 h4]
    exact drawnColor_slot i pos

/-- Claim C9. In every frame each of the five meshes is drawn exactly once;
the draw of the mesh in slot `i` puts the two triangles of stripe `i` on the
screen and colours every fragment with the constant of its program, which for
slots 0 to 4 is blue, pink, white, pink, blue; the slots are the bands from top
to bottom, each stripe lying below the one before it. A band is the y range of
its stripe's own vertex data, from the smallest to the largest y the array
holds (for the top stripe the array's 0.6 and 1.0, for the middle stripe its
-0.2 and 0.2): any draw of the frame that covers a point whose y lies strictly
inside the band of slot `i` has the colour of slot `i`, in particular blue
strictly inside the band of `stripe_blue_top` and white strictly inside the
band of `stripe_white`; and every such point whose x lies within the stripe's
x range is covered by a draw. -/
theorem band_colours (ticks : Nat → TickInput) (k : Nat) :
    (frameOps ticks k).filter RenderOp.isDraw =
      [slotDraw 0, slotDraw 4, slotDraw 1, slotDraw 3, slotDraw 2] ∧
    (∀ i : Fin 5,
      (frameOps ticks k).countP (fun op => decide (op.array = some (locals.VAOs.getD i 0))) = 1) ∧
    (∀ i : Fin 5, (frameStart ticks k).drawnTriangles (slotDraw i) =
      assemble aPosLayout (stripeOfSlot i) stripe_indices) ∧
    (∀ (i : Fin 5) (pos : Vec4),
      (frameStart ticks k).drawnColor pos (slotDraw i) = some (specColour i)) ∧
    (∀ i : Fin 4, yMax (stripeOfSlot i.succ) ≤ yMin (stripeOfSlot i.castSucc)) ∧
    (∀ (i : Fin 5), ∀ op ∈ frameOps ticks k, ∀ t ∈ (frameStart ticks k).drawnTriangles op,
      ∀ p : Vec3, inTriangle t p →
      yMin (stripeOfSlot i) < p.y → p.y < yMax (stripeOfSlot i) →
      ∀ pos : Vec4, (frameStart ticks k).drawnColor pos op = some (specColour i)) ∧
    (∀ op ∈ frameOps ticks k, ∀ t ∈ (frameStart ticks k).drawnTriangles op,
      ∀ p : Vec3, inTriangle t p →
      yMin stripe_blue_top < p.y → p.y < yMax stripe_blue_top →
      ∀ pos : Vec4, (frameStart ticks k).drawnColor pos op = some ⟨0.36, 0.81, 0.98, 1.0⟩) ∧
    (∀ op ∈ frameOps ticks k, ∀ t ∈ (frameStart ticks k).drawnTriangles op,
      ∀ p : Vec3, inTriangle t p →
      yMin stripe_white < p.y → p.y < yMax stripe_white →
      ∀ pos : Vec4, (frameStart ticks k).drawnColor pos op = some ⟨1, 1, 1, 1⟩) ∧
    (∀ (i : Fin 5) (p : Vec3),
      xMin (stripeOfSlot i) ≤ p.x → p.x ≤ xMax (stripeOfSlot i) →
      yMin (stripeOfSlot i) < p.y → p.y < yMax (stripeOfSlot i) →
      ∃ op ∈ frameOps ticks k, ∃ t ∈ (frameStart ticks k).drawnTriangles op, inTriangle t p) := by
  have hp := prepared_frameStart ticks k
  refine ⟨?_, ?_, ?_, ?_, ?_, ?_, ?_, ?_, ?_⟩
  · rw [frameOps_eq]; rfl
  · intro i
    rw [frameOps_eq]
    fin_cases i <;> rfl
  · intro i
    rw [drawnTriangles_prepared hp]
    exact drawnTriangles_slot i
  · intro i pos
    rw [drawnColor_prepared hp]
    exact drawnColor_slot i pos
  · intro i
    rw [yMin_slot, yMax_slot]
    fin_cases i <;> norm_num [specBand]
  · intro i op hop t ht p hin h1 h2 pos
    exact colour_in_band ticks k i op hop t ht p hin h1 h2 pos
  · intro op hop t ht p hin h1 h2 pos
    exact colour_in_band ticks k 0 op hop t ht p hin h1 h2 pos
  · intro op hop t ht p hin h1 h2 pos
    exact colour_in_band ticks k 2 op hop t ht p hin h1 h2 pos
  · intro i p h1 h2 h3 h4
    rw [xMin_slot] at h1
    rw [xMax_slot] at h2
    rw [yMin_slot] at h3
    rw [yMax_slot] at h4
    obtain ⟨t, ht, hin⟩ := drawn_of_band i p h1 h2 h3.le h4.le
    refine ⟨slotDraw i, ?_, t, ?_, hin⟩
    · rw [frameOps_eq, frame_slots]
      fin_cases i <;> simp
    · rw [drawnTriangles_prepared hp]
      exact ht

/-- Claim C9, witness: the point (0, 0.8), which lies strictly inside the band
of the top stripe, is covered, and only by blue. -/
theorem band_colours_witness :
    (xMin (stripeOfSlot 0) ≤ 0 ∧ (0 : ℚ) ≤ xMax (stripeOfSlot 0) ∧
      yMin stripe_blue_top < 0.8 ∧ 0.8 < yMax stripe_blue_top) ∧
    (∃ op ∈ frameOps quiet 0, ∃ t ∈ (frameStart quiet 0).drawnTriangles op,
      inTriangle t ⟨0, 0.8, 0⟩) ∧
    (∀ op ∈ frameOps quiet 0, ∀ t ∈ (frameStart quiet 0).drawnTriangles op,
      inTriangle t ⟨0, 0.8, 0⟩ →
      ∀ pos : Vec4, (frameStart quiet 0).drawnColor pos op = some ⟨0.36, 0.81, 0.98, 1.0⟩) :=
  have hx1 : xMin (stripeOfSlot 0) ≤ 0 := by rw [xMin_slot]; norm_num
  have hx2 : (0 : ℚ) ≤ xMax (stripeOfSlot 0) := by rw [xMax_slot]; norm_num
  have hy1 : yMin stripe_blue_top < 0.8 := by
    rw [show stripe_blue_top = stripeOfSlot 0 from rfl, yMin_slot]; norm_num [specBand]
  have hy2 : (0.8 : ℚ) < yMax stripe_blue_top := by
    rw [show stripe_blue_top = stripeOfSlot 0 from rfl, yMax_slot]; norm_num [specBand]
  ⟨⟨hx1, hx2, hy1, hy2⟩,
   (band_colours quiet 0).2.2.2.2.2.2.2.2 0 ⟨0, 0.8, 0⟩ hx1 hx2 hy1 hy2,
   fun op hop t ht hin =>
     (band_colours quiet 0).2.2.2.2.2.2.1 op hop t ht ⟨0, 0.8, 0⟩ hin hy1 hy2⟩

/-- Claim C2, witness: no y lies strictly inside both of the two topmost
bands, here at y = 0.7. -/
theorem bands_partition_witness :
    (0 : Fin 5) ≠ 1 ∧
    ¬ (yMin (stripeOfSlot 0) < 0.7 ∧ 0.7 < yMax (stripeOfSlot 0) ∧
       yMin (stripeOfSlot 1) < 0.7 ∧ 0.7 < yMax (stripeOfSlot 1)) :=
  ⟨by decide, bands_partition.2.1 0 1 (by decide) 0.7⟩

/-- Claim C4, witness: the first vertex of the top stripe has z = 0. -/
theorem stripe_arrays_witness :
    (⟨1, (specBand 0).2, 0⟩ : Vec3) ∈ quad (stripeOfSlot 0) ∧
    (⟨1, (specBand 0).2, 0⟩ : Vec3).z = 0.0 :=
  ⟨by rw [quad_slot]; exact List.mem_cons_self _ _,
   (stripe_arrays 0).2.2.2.2.2.1 _ (by rw [quad_slot]; exact List.mem_cons_self _ _)⟩

end HelloTrans
